import Mathlib

/-!
Verification development for the tinytroupe_agentic focus-group system.

The Python sources are shallowly embedded: strings are `List Char`
(`Str`), dictionaries with a fixed key set are structures, dynamic JSON
values are the inductive `J`, and `dict`-typed results with user-chosen
keys are insertion-ordered association lists with Python assignment
semantics (`dictSet`).  All nondeterminism of the orchestrator (the
`random` module, participant replies and every generation-service
result) is supplied by an `Oracle` of functions indexed by a running
counter, so each theorem quantifies over every possible run.
Wall-clock timestamps (`datetime.now().isoformat()`) decorate entries in
the source but are observed by no claim, so the `timestamp` key is not
modelled.
-/

/-- Python strings, modelled as their character lists. -/
abbrev Str := List Char

/-- Embed a Lean string literal as a `Str`. -/
def lit (s : String) : Str := s.toList

/-- Python `str.lower()` (ASCII case folding, as the sources only use ASCII). -/
def pyLower (s : Str) : Str := s.map Char.toLower

/-- Python whitespace for `str.split()` / `str.strip()` / regex `\s`
(ASCII part: space, tab, newline, carriage return, vertical tab, form feed). -/
def pyIsSpace (c : Char) : Bool := c.isWhitespace || c = '\x0b' || c = '\x0c'

/-- Python `str.strip()`. -/
def pyStrip (s : Str) : Str :=
  ((s.dropWhile pyIsSpace).reverse.dropWhile pyIsSpace).reverse

/-- Python `str.split()` with no argument: split on whitespace runs, no empties. -/
def pySplit (s : Str) : List Str :=
  (s.splitOnP pyIsSpace).filter (fun w => !w.isEmpty)

/-- Python `sep in s` for strings: substring containment. -/
def isSubstr (needle : Str) : Str → Bool
  | [] => needle.isEmpty
  | c :: rest => needle.isPrefixOf (c :: rest) || isSubstr needle rest

/-- Whether any needle of the list occurs in the haystack (`any(x in s for x in ...)`). -/
def anySubstr (needles : List Str) (hay : Str) : Bool :=
  needles.any (fun n => isSubstr n hay)

/-- Fuel-driven body of `pyReplace` (structural recursion on the fuel,
which `pyReplace` seeds with the string length — enough because every
step consumes at least one character). -/
def pyReplaceFuel (pat rep : Str) : Nat → Str → Str
  | 0, s => s
  | _ + 1, [] => []
  | fuel + 1, c :: rest =>
    if pat ≠ [] ∧ pat.isPrefixOf (c :: rest) then
      rep ++ pyReplaceFuel pat rep fuel ((c :: rest).drop pat.length)
    else
      c :: pyReplaceFuel pat rep fuel rest

/-- Python `s.replace(pat, rep)`: replace every non-overlapping occurrence,
left to right.  (The sources only call it with non-empty patterns.) -/
def pyReplace (pat rep : Str) (s : Str) : Str :=
  pyReplaceFuel pat rep s.length s

/-- Python `s.split(ch)` for a single-character separator (keeps empty pieces). -/
def pySplitChar (sep : Char) (s : Str) : List Str :=
  s.splitOnP (fun c => c = sep)

/-- Python `s.split(sep, 1)` when `sep` is known to occur: the text before the
first occurrence of `sep` and the text after it. -/
def pySplitFirst (sep : Str) : Str → Option (Str × Str)
  | [] => if sep.isEmpty then some ([], []) else none
  | c :: rest =>
    if sep.isPrefixOf (c :: rest) then
      some ([], (c :: rest).drop sep.length)
    else
      match pySplitFirst sep rest with
      | some (pre, post) => some (c :: pre, post)
      | none => none

/-- Python `" ".join(xs)`. -/
def joinSpace (xs : List Str) : Str := List.intercalate [' '] xs

/-- Decimal rendering of a natural number (Python `str(n)` / f-string). -/
def natToStr (n : Nat) : Str := Nat.toDigits 10 n

/-- First-occurrence deduplication: the iteration order of a Python `dict`
or `collections.Counter` built by repeated insertion. -/
def dedupFirst (l : List Str) : List Str :=
  l.foldl (fun acc x => if x ∈ acc then acc else acc ++ [x]) []

/-- Count of occurrences of `w` in `l` (Python `Counter`). -/
def occCount (l : List Str) (w : Str) : Nat := (l.filter (fun x => x = w)).length

/-- Python `d[k] = v` on an insertion-ordered dict rendered as an association
list: overwrite in place if the key exists, else append. -/
def dictSet {α : Type} (kvs : List (Str × α)) (k : Str) (v : α) : List (Str × α) :=
  match kvs with
  | [] => [(k, v)]
  | (k', v') :: rest =>
    if k' = k then (k', v) :: rest else (k', v') :: dictSet rest k v

/-- Python `dict.get` on an association list. -/
def dictGet {α : Type} (kvs : List (Str × α)) (k : Str) : Option α :=
  (kvs.find? (fun p => p.1 = k)).map Prod.snd

/-- Python `lst[-2:]`. -/
def lastTwo {α : Type} (l : List α) : List α := l.drop (l.length - 2)

/-! ### Dynamic JSON values

`core/llm_client.py` returns arbitrary JSON to its callers; consumers
check shapes with `isinstance`.  `J.null` stands for Python `None`. -/

/-- A JSON value as returned by `LLMClient.generate_json_sync`. -/
inductive J : Type
  | str (s : Str)
  | num (n : Int)
  | arr (l : List J)
  | obj (kvs : List (Str × J))
  | bool (b : Bool)
  | null

/-- Python truthiness of a JSON value. -/
def jTruthy : J → Bool
  | J.str s => !s.isEmpty
  | J.num n => n ≠ 0
  | J.arr l => !l.isEmpty
  | J.obj kvs => !kvs.isEmpty
  | J.bool b => b
  | J.null => false

/-- `isinstance(v, dict)`. -/
def jIsObj : J → Bool
  | J.obj _ => true
  | _ => false

/-- Python `d.get(k)` on a JSON object (`None` i.e. `none` when absent
or when the value is not an object). -/
def jGet (v : J) (k : Str) : Option J :=
  match v with
  | J.obj kvs => dictGet kvs k
  | _ => none

/-! ### Coordinator (`core/agentic_coordinator.py`)

`AgenticCoordinator.propose_next_action` builds prompts and asks the
generation service for a JSON directive; the prompts only influence the
external service, so the embedding takes the service's parsed result as
the argument.  Lines 74-77: a non-dict result is replaced by the
`wrap_up` fallback directive, anything else is returned unchanged. -/

/-- The `{action: wrap_up}` fallback directive of `propose_next_action`. -/
def wrapUpFallback : J :=
  J.obj [(lit "action", J.str (lit "wrap_up")),
         (lit "notes", J.str (lit "fallback")),
         (lit "reason", J.str (lit "invalid response"))]

/-- `AgenticCoordinator.propose_next_action`, as a function of the
generation service's parsed JSON result. -/
def propose_next_action (serviceResult : J) : J :=
  if jIsObj serviceResult then serviceResult else wrapUpFallback

/-! ### Quote impact scoring

`SummaryGeneratorAgent._calculate_quote_impact`
(`agents/summary_generator.py` lines 429-453) and
`CustomSummaryGeneratorAgent._calculate_quote_impact`
(`agents/custom_summary_generator.py` lines 512-536) are identical; one
embedding serves both. -/

/-- The emotional indicator word list of `_calculate_quote_impact`. -/
def emotional_words : List Str :=
  [lit "love", lit "hate", lit "amazing", lit "terrible",
   lit "perfect", lit "awful", lit "excited", lit "disappointed"]

/-- The price/brand ("specific details") indicator list of `_calculate_quote_impact`. -/
def detail_indicators : List Str :=
  [lit "₹", lit "rupees", lit "cost", lit "price", lit "brand", lit "product"]

/-- The personal-experience indicator list of `_calculate_quote_impact`. -/
def personal_indicators : List Str :=
  [lit "my experience", lit "i found", lit "i tried", lit "i bought", lit "i use"]

/-- How many of the given indicator strings occur in the content
(each present indicator counted once). -/
def presentCount (ws : List Str) (c : Str) : Nat :=
  (ws.filter (fun w => isSubstr w c)).length

/-- `_calculate_quote_impact`. -/
def calculate_quote_impact (content : Str) : Int :=
  let content_lower := pyLower content
  let emotional : Int := 2 * presentCount emotional_words content_lower
  let details : Int := if anySubstr detail_indicators content_lower then 3 else 0
  let personal : Int := 2 * presentCount personal_indicators content_lower
  let lengthAdj : Int :=
    if 50 ≤ content.length ∧ content.length ≤ 200 then 2
    else if 200 < content.length then -1
    else 0
  emotional + details + personal + lengthAdj

/-! ### The transcript entry and participant data model

A transcript entry is a Python dict read with `.get` defaults
downstream; absent keys are represented by `Option` fields (or for
`type`/`speaker`/`content` by their materialised defaults `"unknown"` /
`"Unknown"` / `""`).  The `timestamp` key is not modelled (see the file
header). -/

/-- One transcript entry. -/
structure Entry where
  type : Str
  speaker : Str
  content : Str
  phase : Option Str := none
  interaction_type : Option Str := none
  target : Option Str := none
  personality_type : Option Str := none
  speaking_order : Option Nat := none
  participants : List Str := []
deriving DecidableEq

/-- A participant persona: the attribute bag created by persona
generation and carried by the `TinyPerson` wrapper. -/
structure Persona where
  name : Str
  age : Nat := 25
  occupation : Str := lit "professional"
  location : Str := lit "Unknown"
  monthly_budget : Str := lit "moderate budget"
  personality_type : Str := lit "unknown"
  background : Str := lit ""
deriving DecidableEq

/-! ### Default summary organizer (`agents/summary_generator.py` lines 93-186) -/

/-- One organized response (`response_data` in `_organize_transcript_data`);
`phase` is the `current_phase` loop variable at the time the response was
seen (`None` before the first question). -/
structure RespData where
  speaker : Str
  content : Str
  phase : Option Str := none
  word_count : Nat := 0
deriving DecidableEq

/-- One organized interaction (`interaction_data`). -/
structure InterData where
  speaker : Str
  content : Str
  itype : Str
  target : Option Str := none
deriving DecidableEq

/-- One organized question with the responses gathered while it was the
most recent question. -/
structure QData where
  question : Str
  phase : Str
  responses : List RespData := []
deriving DecidableEq

/-- A per-participant bucket of `organized["participants"]`. -/
structure Bucket where
  name : Str
  responses : List RespData := []
  interactions : List InterData := []
  personality_type : Str := lit "unknown"
  speaking_count : Nat := 0
  total_words : Nat := 0
deriving DecidableEq

/-- A phase bucket of `organized["phases"]` (registered with three empty
lists and never written again). -/
structure PhaseBucket where
  questions : List QData := []
  responses : List RespData := []
  interactions : List InterData := []
deriving DecidableEq

/-- The organized view of a transcript (`organized` in
`_organize_transcript_data`). -/
structure Organized where
  participants : List (Str × Bucket) := []
  responses : List RespData := []
  interactions : List InterData := []
  questions : List QData := []
  phases : List (Str × PhaseBucket) := []
  setup_entries : List Entry := []
  total_exchanges : Nat := 0
  discussion_topic : Str := lit "the discussed topic"
deriving DecidableEq

/-- Update the bucket stored under key `n` (Python mutates
`organized["participants"][speaker]` in place). -/
def updBucket (ps : List (Str × Bucket)) (n : Str) (f : Bucket → Bucket) :
    List (Str × Bucket) :=
  match ps with
  | [] => []
  | (k, b) :: rest => if k = n then (k, f b) :: rest else (k, b) :: updBucket rest n f

/-- Append a response to the most recent question
(`organized["questions"][-1]["responses"].append(...)`). -/
def appendLastQ (qs : List QData) (rd : RespData) : List QData :=
  match qs with
  | [] => []
  | [q] => [{ q with responses := q.responses ++ [rd] }]
  | q :: rest => q :: appendLastQ rest rd

/-- The state threaded through the organizing loop: the organized data
and the `current_phase` variable. -/
abbrev OrgState := Organized × Option Str

/-- The setup-entry block of `_organize_transcript_data` (lines 116-119). -/
def org_setup_stage (org : Organized) (e : Entry) : Organized :=
  if e.type = lit "setup" then
    { org with
      setup_entries := org.setup_entries ++ [e],
      discussion_topic :=
        if isSubstr (lit "Focus Group Discussion:") e.content then
          pyStrip (pyReplace (lit "Focus Group Discussion:") [] e.content)
        else org.discussion_topic }
  else org

/-- The lazy participant-registration block (lines 122-130). -/
def org_register_stage (org : Organized) (e : Entry) : Organized :=
  if e.speaker ≠ lit "Moderator" ∧ e.speaker ≠ lit "System" ∧
      (dictGet org.participants e.speaker).isNone then
    { org with
      participants := org.participants ++
        [(e.speaker,
          { name := e.speaker,
            personality_type := e.personality_type.getD (lit "unknown") })] }
  else org

/-- The entry-type dispatch block (lines 133-176), returning the updated
data and the updated `current_phase`. -/
def org_dispatch_stage (org : Organized) (cur : Option Str) (e : Entry) :
    Organized × Option Str :=
  if e.type = lit "question" then
    let ph := e.phase.getD (lit "unknown")
    ({ org with questions := org.questions ++ [{ question := e.content, phase := ph }] },
     some ph)
  else if e.type = lit "response" ∧ e.speaker ≠ lit "Moderator" then
    let rd : RespData :=
      { speaker := e.speaker, content := e.content, phase := cur,
        word_count := (pySplit e.content).length }
    let org := { org with responses := org.responses ++ [rd] }
    let org :=
      if (dictGet org.participants e.speaker).isSome then
        { org with
          participants := updBucket org.participants e.speaker (fun b =>
            { b with
              responses := b.responses ++ [rd],
              speaking_count := b.speaking_count + 1,
              total_words := b.total_words + rd.word_count }) }
      else org
    let org := { org with questions := appendLastQ org.questions rd }
    ({ org with total_exchanges := org.total_exchanges + 1 }, cur)
  else if e.type = lit "interaction" then
    let idata : InterData :=
      { speaker := e.speaker, content := e.content,
        itype := e.interaction_type.getD (lit "general"), target := e.target }
    let org := { org with interactions := org.interactions ++ [idata] }
    let org :=
      if (dictGet org.participants e.speaker).isSome then
        { org with
          participants := updBucket org.participants e.speaker (fun b =>
            { b with interactions := b.interactions ++ [idata] }) }
      else org
    (org, cur)
  else (org, cur)

/-- The phase-registration block (lines 179-184); it sees the possibly
updated `current_phase`, and an empty phase string is falsy in Python so
it is never registered. -/
def org_phase_stage (org : Organized) (cur : Option Str) : Organized :=
  match cur with
  | some ph =>
    if ph ≠ [] ∧ (dictGet org.phases ph).isNone then
      { org with phases := org.phases ++ [(ph, {})] }
    else org
  | none => org

/-- One iteration of the `for entry in transcript` loop of
`SummaryGeneratorAgent._organize_transcript_data`. -/
def organize_step (st : OrgState) (e : Entry) : OrgState :=
  let org := org_setup_stage st.1 e
  let org := org_register_stage org e
  let oc := org_dispatch_stage org st.2 e
  (org_phase_stage oc.1 oc.2, oc.2)

/-- `SummaryGeneratorAgent._organize_transcript_data`. -/
def organize_transcript_data (transcript : List Entry) : Organized :=
  (transcript.foldl organize_step ({}, none)).1

/-! ### Default summary generator heuristics (`agents/summary_generator.py`) -/

/-- `SummaryGeneratorAgent._assess_price_sensitivity` (lines 819-823).
`price_mentions > len(responses) * 0.3` is compared exactly over the
rationals (the float rounding of `0.3` can flip only hairline cases that
no claim observes). -/
def assess_price_sensitivity (responses : List RespData) : Str :=
  let price_mentions :=
    (responses.filter (fun r =>
      isSubstr (lit "price") (pyLower r.content) ||
      isSubstr (lit "cost") (pyLower r.content))).length
  if 3 * responses.length < 10 * price_mentions then lit "High" else lit "Medium"

/-- The three generic filler insights appended when fewer than three
keyword-gated insights were produced. -/
def generic_insights : List Str :=
  [lit "Participants demonstrate strong preference for authentic, relatable experiences over polished marketing.",
   lit "Word-of-mouth and social proof play crucial roles in decision-making processes.",
   lit "Convenience and accessibility are increasingly important factors in consumer choices."]

/-- `SummaryGeneratorAgent._generate_key_insights` (lines 250-293). -/
def generate_key_insights (org : Organized) : List Str :=
  let responses := org.responses
  let all_content := joinSpace (responses.map (fun r => r.content))
  let lc := pyLower all_content
  let priceIns :=
    if anySubstr [lit "price", lit "budget", lit "cost"] lc then
      if assess_price_sensitivity responses = lit "High" then
        [lit "Price transparency and value demonstration are critical decision factors for this demographic."]
      else
        [lit "Quality and features are prioritized over price considerations by most participants."]
    else []
  let trustIns :=
    if anySubstr [lit "trust", lit "review", lit "experience"] lc then
      [lit "Peer recommendations and authentic reviews significantly influence purchase decisions more than traditional advertising."]
    else []
  let digitalIns :=
    if anySubstr [lit "online", lit "app", lit "website"] lc then
      [lit "Digital-first experiences are preferred, with mobile accessibility being a key requirement."]
    else []
  let brandIns :=
    if anySubstr [lit "brand", lit "quality"] lc then
      [lit "Brand reputation and proven quality are essential for building consumer confidence and loyalty."]
    else []
  let personalIns :=
    if 4 ≤ (dedupFirst (org.participants.map (fun p => p.2.personality_type))).length then
      [lit "Diverse personality types require tailored approaches - one-size-fits-all strategies show limited effectiveness."]
    else []
  let insights := priceIns ++ trustIns ++ digitalIns ++ brandIns ++ personalIns
  let insights := if insights.length < 3 then insights ++ generic_insights else insights
  insights.take 5

/-- The "strong opinion" indicator phrases of `_generate_supporting_quotes`. -/
def opinion_indicators : List Str :=
  [lit "i love", lit "i hate", lit "i wish", lit "i need", lit "i want",
   lit "i think", lit "i believe", lit "my experience", lit "i found",
   lit "i noticed", lit "i prefer", lit "i avoid"]

/-- A quote candidate of `_generate_supporting_quotes`. -/
structure QuoteCand where
  speaker : Str
  content : Str
  length : Nat
  impact_score : Int
deriving DecidableEq

/-- A selected supporting quote. -/
structure SelQuote where
  speaker : Str
  quote : Str
  context : Str
deriving DecidableEq

/-- Stable descending comparison on impact score: Python's
`list.sort(key=..., reverse=True)` keeps the original order of equal
scores, which is insertion sort with this relation. -/
def impactGe (a b : QuoteCand) : Prop := b.impact_score ≤ a.impact_score

instance : DecidableRel impactGe := fun a b => inferInstanceAs (Decidable (_ ≤ _))

instance : IsTotal QuoteCand impactGe :=
  ⟨fun a b => le_total b.impact_score a.impact_score⟩

instance : IsTrans QuoteCand impactGe :=
  ⟨fun _ _ _ h1 h2 => le_trans h2 h1⟩

/-- Quote text formatting: trim to 147 characters plus an ellipsis when
longer than 150 characters, then wrap in double quotes. -/
def formatQuote (content : Str) : Str :=
  let c := if 150 < content.length then content.take 147 ++ lit "..." else content
  '"' :: c ++ ['"']

/-- The primary selection loop of `_generate_supporting_quotes`: walk the
sorted candidates, skip speakers already used, stop at three quotes. -/
def pickQuotes : List QuoteCand → List SelQuote → List Str → List SelQuote × List Str
  | [], sel, used => (sel, used)
  | c :: rest, sel, used =>
    if 3 ≤ sel.length then (sel, used)
    else if c.speaker ∈ used then pickQuotes rest sel used
    else
      pickQuotes rest
        (sel ++ [{ speaker := c.speaker, quote := formatQuote c.content,
                   context := lit "During focus group discussion" }])
        (used ++ [c.speaker])

/-- The fallback loop of `_generate_supporting_quotes` (lines 344-359):
walk the last two responses, skip speakers in `used_speakers`, break once
three quotes are reached.  Note the source never adds the fallback
speakers to `used_speakers`. -/
def fallbackQuotes : List RespData → List SelQuote → List Str → List SelQuote
  | [], sel, _ => sel
  | r :: rest, sel, used =>
    if r.speaker ∈ used then fallbackQuotes rest sel used
    else
      let sel := sel ++ [{ speaker := r.speaker, quote := formatQuote r.content,
                           context := lit "During focus group discussion" }]
      if 3 ≤ sel.length then sel else fallbackQuotes rest sel used

/-- `SummaryGeneratorAgent._generate_supporting_quotes` (lines 295-361). -/
def generate_supporting_quotes (org : Organized) : List SelQuote :=
  let responses := org.responses
  let candidates := responses.filterMap (fun r =>
    if anySubstr opinion_indicators (pyLower r.content) then
      some { speaker := r.speaker, content := r.content,
             length := r.content.length,
             impact_score := calculate_quote_impact r.content }
    else none)
  let sorted := candidates.insertionSort impactGe
  let (sel, used) := pickQuotes sorted [] []
  let sel :=
    if sel.length < 2 ∧ responses ≠ [] then
      fallbackQuotes (lastTwo responses) sel used
    else sel
  sel.take 3

/-- The fixed domain vocabulary of
`SummaryGeneratorAgent._extract_common_themes` (line 709). -/
def common_words : List Str :=
  [lit "price", lit "quality", lit "brand", lit "experience", lit "value",
   lit "service", lit "product", lit "online", lit "store", lit "recommend"]

/-- Frequency of `w` as a whitespace-delimited token of the lower-cased text. -/
def wordFreq (text : Str) (w : Str) : Nat := occCount (pySplit (pyLower text)) w

/-- Stable descending comparison on the stored frequency. -/
def freqGe (a b : Str × Nat) : Prop := b.2 ≤ a.2

instance : DecidableRel freqGe := fun a b => inferInstanceAs (Decidable (_ ≤ _))

instance : IsTotal (Str × Nat) freqGe := ⟨fun a b => le_total b.2 a.2⟩

instance : IsTrans (Str × Nat) freqGe := ⟨fun _ _ _ h1 h2 => le_trans h2 h1⟩

/-- `SummaryGeneratorAgent._extract_common_themes` (lines 706-721): keep
every vocabulary word that occurs at least once as a token, sort by
descending frequency (stable) and return the words. -/
def extract_common_themes (text : Str) : List Str :=
  let relevant := common_words.foldl (fun acc w =>
    if 1 ≤ wordFreq text w then acc ++ [(w, wordFreq text w)] else acc) []
  (relevant.insertionSort freqGe).map Prod.fst

/-- Positive indicator words of `_analyze_sentiment` (line 584). -/
def positive_indicators : List Str :=
  [lit "love", lit "great", lit "amazing", lit "excellent", lit "perfect", lit "wonderful"]

/-- Negative indicator words of `_analyze_sentiment` (line 585). -/
def negative_indicators : List Str :=
  [lit "hate", lit "terrible", lit "awful", lit "worst", lit "horrible", lit "disappointing"]

/-- Neutral indicator words of `_analyze_sentiment` (line 586). -/
def neutral_indicators : List Str :=
  [lit "okay", lit "fine", lit "decent", lit "average", lit "normal"]

/-- The per-response sentiment assignment inside the
`for response in responses` loop of
`SummaryGeneratorAgent._analyze_sentiment` (lines 593-607). -/
def sentiment_label (content : Str) : Str :=
  let cl := pyLower content
  let positive_count := presentCount positive_indicators cl
  let negative_count := presentCount negative_indicators cl
  let neutral_count := presentCount neutral_indicators cl
  if positive_count > negative_count ∧ positive_count > neutral_count then lit "positive"
  else if negative_count > positive_count ∧ negative_count > neutral_count then lit "negative"
  else lit "neutral"

/-- Modelled from the spec's words (§4.4 "Sentiment tally", the reference
reading for claim C9): the response's sentiment is whichever list has the
strictly highest count; whenever no list has a strictly highest count the
response is neutral. -/
def sentiment_spec_rule (content : Str) : Str :=
  let cl := pyLower content
  let p := presentCount positive_indicators cl
  let n := presentCount negative_indicators cl
  let u := presentCount neutral_indicators cl
  if p > n ∧ p > u then lit "positive"
  else if n > p ∧ n > u then lit "negative"
  else if u > p ∧ u > n then lit "neutral"
  else lit "neutral"

/-! ### Custom summary generator (`agents/custom_summary_generator.py`) -/

/-- The fixed theme vocabulary of `CustomSummaryGeneratorAgent._extract_themes`
(line 503). -/
def theme_words : List Str :=
  [lit "price", lit "quality", lit "brand", lit "experience", lit "value",
   lit "service", lit "product", lit "online", lit "trust", lit "recommend"]

/-- `CustomSummaryGeneratorAgent._extract_themes` (lines 495-510): keep
vocabulary words mentioned more than twice, in vocabulary order, first five. -/
def extract_themes (content : Str) : List Str :=
  let themes := theme_words.foldl (fun acc w =>
    if 2 < wordFreq content w then acc ++ [w] else acc) []
  themes.take 5

/-- A collected quote of the custom organizer. -/
structure CQuote where
  speaker : Str
  content : Str
  impact_score : Int
deriving DecidableEq

/-- Stable descending comparison on collected-quote impact. -/
def cImpactGe (a b : CQuote) : Prop := b.impact_score ≤ a.impact_score

instance : DecidableRel cImpactGe := fun a b => inferInstanceAs (Decidable (_ ≤ _))

instance : IsTotal CQuote cImpactGe := ⟨fun a b => le_total b.impact_score a.impact_score⟩

instance : IsTrans CQuote cImpactGe := ⟨fun _ _ _ h1 h2 => le_trans h2 h1⟩

/-- The organized view built by
`CustomSummaryGeneratorAgent._organize_transcript_data` (lines 79-141). -/
structure COrganized where
  participants : List (Str × Persona) := []
  responses : List RespData := []
  interactions : List InterData := []
  questions : List QData := []
  topic : Str := []
  all_content : Str := []
  participant_contributions : List (Str × List RespData) := []
  themes : List Str := []
  quotes : List CQuote := []
deriving DecidableEq

/-- One iteration of the custom organizer's transcript loop. -/
def organize_custom_step (org : COrganized) (e : Entry) : COrganized :=
  if e.type = lit "response" ∧ e.speaker ≠ lit "Moderator" then
    let rd : RespData :=
      { speaker := e.speaker, content := e.content,
        word_count := (pySplit e.content).length }
    let org := { org with
      responses := org.responses ++ [rd],
      all_content := org.all_content ++ ' ' :: e.content }
    let org :=
      { org with
        participant_contributions :=
          match dictGet org.participant_contributions e.speaker with
          | some l => dictSet org.participant_contributions e.speaker (l ++ [rd])
          | none => org.participant_contributions ++ [(e.speaker, [rd])] }
    if 50 < e.content.length ∧ e.content.length < 300 then
      { org with quotes := org.quotes ++
          [{ speaker := e.speaker, content := e.content,
             impact_score := calculate_quote_impact e.content }] }
    else org
  else if e.type = lit "question" then
    { org with questions := org.questions ++ [{ question := e.content, phase := [] }] }
  else if e.type = lit "interaction" then
    { org with interactions := org.interactions ++
        [{ speaker := e.speaker, content := e.content,
           itype := e.interaction_type.getD (lit "general") }] }
  else org

/-- `CustomSummaryGeneratorAgent._organize_transcript_data`. -/
def organize_custom_data (transcript : List Entry) (personas : List Persona)
    (topic : Str) : COrganized :=
  let base : COrganized :=
    { participants := personas.foldl (fun acc p => dictSet acc p.name p) [],
      topic := topic }
  let org := transcript.foldl organize_custom_step base
  { org with themes := extract_themes org.all_content }

/-! #### Outline parsing (`_parse_schema`, lines 143-186)

The numbered-line pattern `^(\d+)\.\s*(.+?)(?:\s*-\s*(.+))?$` is embedded
by its backtracking semantics: a maximal digit run followed by `.`, then
after the greedy whitespace run the lazy `(.+?)` makes the title end at
the earliest position whose suffix matches `\s*-\s*(.+)$`; with no such
position the optional group is absent and the title runs to the end. -/

/-- Match `\s*-\s*(.+)$` against a suffix: after leading whitespace there
must be a `-`; the group takes the rest (backtracking leaves the last
character to `(.+)` when only whitespace follows the `-`). -/
def trySep (u : Str) : Option Str :=
  match u.dropWhile pyIsSpace with
  | '-' :: v =>
    if v = [] then none
    else
      let v' := v.dropWhile pyIsSpace
      if v' = [] then some [(v.getLast?).getD ' '] else some v'
  | _ => none

/-- Fuel-driven scan of `findSplit` (structural recursion on the fuel). -/
def findSplitAux (body : Str) : Nat → Nat → Str × Option Str
  | 0, _ => (body, none)
  | fuel + 1, ℓ =>
    if body.length ≤ ℓ then (body, none)
    else
      match trySep (body.drop ℓ) with
      | some d => (body.take ℓ, some d)
      | none => findSplitAux body fuel (ℓ + 1)

/-- Scan for the earliest split of `body` into a non-empty lazy title and
a `\s*-\s*(.+)` tail; `(body, none)` when the optional group is absent. -/
def findSplit (body : Str) (ℓ : Nat) : Str × Option Str :=
  findSplitAux body body.length ℓ

/-- Match the numbered-section regex against a stripped line, returning
`(number, raw title, raw description)` (`none` for an absent group 3). -/
def matchNumbered (line : Str) : Option (Str × Str × Option Str) :=
  let ds := line.takeWhile Char.isDigit
  if ds = [] then none
  else
    match line.drop ds.length with
    | '.' :: rest =>
      if rest = [] then none
      else
        let body := rest.dropWhile pyIsSpace
        if body = [] then
          -- only whitespace after the dot: the lazy group is left the final character
          some (ds, [(rest.getLast?).getD ' '], none)
        else
          match findSplit body 1 with
          | (t, d) => some (ds, t, d)
    | _ => none

/-- Section-key derivation from a (stripped) section title:
`title.lower().replace(' ', '_').replace('&', 'and')` then removal of
every character outside `\w` (modelled over the ASCII word characters the
repository uses). -/
def derive_section_key (title : Str) : Str :=
  let k := pyReplace [' '] ['_'] (pyLower title)
  let k := pyReplace ['&'] (lit "and") k
  k.filter (fun c => c.isAlphanum || c = '_')

/-- A parsed outline section. -/
structure Section where
  number : Str
  title : Str
  description : Str
  key : Str
  original_line : Str
deriving DecidableEq

/-- The per-line step of `_parse_schema` over the sections accumulated
so far. -/
def parse_schema_line (acc : List Section) (rawLine : Str) : List Section :=
  let line := pyStrip rawLine
  if line = [] then acc
  else
    match matchNumbered line with
    | some (num, titleRaw, descRaw) =>
      let title := pyStrip titleRaw
      let description := match descRaw with | some d => pyStrip d | none => []
      acc ++ [{ number := num, title := title, description := description,
                key := derive_section_key title, original_line := line }]
    | none =>
      if line.head? = some '-' ∨ line.head? = some '•' then
        let title := pyStrip line.tail
        acc ++ [{ number := natToStr (acc.length + 1), title := title,
                  description := [], key := derive_section_key title,
                  original_line := line }]
      else acc

/-- `CustomSummaryGeneratorAgent._parse_schema`. -/
def parse_schema (schema : Str) : List Section :=
  (pySplitChar '\n' schema).foldl parse_schema_line []

/-! #### Custom section content (`_generate_section_content` and the
eleven generators, lines 188-493) -/

/-- A JSON-like summary value (section contents are strings, lists or
nested objects). -/
inductive Val : Type
  | str (s : Str)
  | natv (n : Nat)
  | list (l : List Val)
  | obj (kvs : List (Str × Val))

/-- `_generate_objective_content` (lines 241-252). -/
def generate_objective_content (org : COrganized) : Val :=
  let topic := org.topic
  let participant_count := org.participants.length
  let tl := pyLower topic
  if isSubstr (lit "beauty") tl || isSubstr (lit "cosmetic") tl then
    Val.str (lit "To understand consumer perceptions and behaviors regarding " ++ topic ++
      lit ", identify key decision drivers in beauty purchasing, and uncover barriers to adoption among " ++
      natToStr participant_count ++ lit " diverse participants.")
  else if isSubstr (lit "tech") tl || isSubstr (lit "app") tl then
    Val.str (lit "To explore user experiences and preferences related to " ++ topic ++
      lit ", identify adoption drivers, and understand usage barriers among " ++
      natToStr participant_count ++ lit " target users.")
  else
    Val.str (lit "To gain deep insights into consumer attitudes and behaviors regarding " ++ topic ++
      lit ", identify key decision factors, and uncover potential barriers among " ++
      natToStr participant_count ++ lit " representative participants.")

/-- Title-casing of a personality tag:
`persona.get("personality_type", "balanced").replace('_', ' ').title()`
(each word's first letter upper-cased, the rest lower-cased). -/
def pyTitleWord (w : Str) : Str :=
  match w with
  | [] => []
  | c :: rest => c.toUpper :: rest.map Char.toLower

/-- Python `str.title()` restricted to space-separated words (the tags in
the repository contain no other separators). -/
def pyTitle (s : Str) : Str :=
  joinSpace ((pySplitChar ' ' s).map pyTitleWord)

/-- `_generate_participant_content` (lines 254-297). -/
def generate_participant_content (org : COrganized) (personas : List Persona) : Val :=
  let ages := (personas.filter (fun p => p.age ≠ 0)).map (fun p => p.age)
  let locations := personas.map (fun p => p.location)
  let ptypes := personas.map (fun p => p.personality_type)
  let age_range :=
    match ages with
    | [] => lit "Not specified"
    | a :: rest =>
      natToStr (rest.foldl Nat.min a) ++ lit "-" ++ natToStr (rest.foldl Nat.max a) ++
        lit " years"
  Val.obj
    [(lit "total_count", Val.natv personas.length),
     (lit "demographics", Val.obj
       [(lit "age_range", Val.str age_range),
        (lit "locations", Val.list ((dedupFirst locations).map Val.str)),
        (lit "personality_distribution", Val.obj
          ((dedupFirst ptypes).map (fun t => (t, Val.natv (occCount ptypes t)))))]),
     (lit "selection_criteria", Val.list
       [Val.str (lit "Diverse personality types to ensure varied perspectives"),
        Val.str (lit "Representative age range of target demographic"),
        Val.str (lit "Geographic diversity across different market segments"),
        Val.str (lit "Authentic backgrounds with real spending patterns")]),
     (lit "participant_profiles", Val.list ((personas.take 5).map (fun p =>
       Val.obj
         [(lit "name", Val.str p.name),
          (lit "age", Val.natv p.age),
          (lit "occupation", Val.str p.occupation),
          (lit "location", Val.str p.location),
          (lit "personality_type",
            Val.str (pyTitle (pyReplace ['_'] [' '] p.personality_type))),
          (lit "budget", Val.str p.monthly_budget)])))]

/-- The generic filler insights of `_generate_insights_content`
(identical sentences to the default generator's, without final periods). -/
def generic_insights_custom : List Str :=
  [lit "Participants demonstrate strong preference for authentic, relatable experiences over polished marketing",
   lit "Word-of-mouth and social proof play crucial roles in decision-making processes",
   lit "Convenience and accessibility are increasingly important factors in consumer choices"]

/-- `_generate_insights_content` (lines 299-334). -/
def generate_insights_content (org : COrganized) : Val :=
  let all_content := pyLower org.all_content
  let priceIns :=
    if anySubstr [lit "price", lit "budget", lit "cost"] all_content then
      [lit "Price transparency and value demonstration are critical decision factors for this demographic"]
    else []
  let trustIns :=
    if anySubstr [lit "trust", lit "review", lit "experience"] all_content then
      [lit "Peer recommendations and authentic reviews significantly influence decisions more than traditional advertising"]
    else []
  let digitalIns :=
    if anySubstr [lit "online", lit "app", lit "website"] all_content then
      [lit "Digital-first experiences are preferred, with mobile accessibility being a key requirement"]
    else []
  let brandIns :=
    if anySubstr [lit "brand", lit "quality"] all_content then
      [lit "Brand reputation and proven quality are essential for building consumer confidence and loyalty"]
    else []
  let themeIns := (org.themes.take 3).map (fun theme =>
    lit "Participants consistently discussed " ++ theme ++
      lit " as a key factor in their decision-making process")
  let insights := priceIns ++ trustIns ++ digitalIns ++ brandIns ++ themeIns
  let insights :=
    if insights.length < 3 then insights ++ generic_insights_custom else insights
  Val.list ((insights.take 5).map Val.str)

/-- Quote formatting of `_generate_quotes_content`: 197 characters plus
ellipsis above 200 characters, wrapped in double quotes. -/
def formatQuote200 (content : Str) : Str :=
  let c := if 200 < content.length then content.take 197 ++ lit "..." else content
  '"' :: c ++ ['"']

/-- The selection loop of `_generate_quotes_content`. -/
def pickCQuotes : List CQuote → List Val → List Str → List Val
  | [], sel, _ => sel
  | q :: rest, sel, used =>
    if 3 ≤ sel.length then sel
    else if q.speaker ∈ used then pickCQuotes rest sel used
    else
      pickCQuotes rest
        (sel ++ [Val.obj
          [(lit "speaker", Val.str q.speaker),
           (lit "quote", Val.str (formatQuote200 q.content)),
           (lit "context", Val.str (lit "During focus group discussion"))]])
        (used ++ [q.speaker])

/-- `_generate_quotes_content` (lines 336-364). -/
def generate_quotes_content (org : COrganized) : Val :=
  Val.list (pickCQuotes (org.quotes.insertionSort cImpactGe) [] [])

/-- `_generate_recommendations_content` (lines 366-393). -/
def generate_recommendations_content (org : COrganized) : Val :=
  let all_content := pyLower org.all_content
  let r1 :=
    if isSubstr (lit "expensive") all_content || isSubstr (lit "price") all_content then
      [lit "Implement transparent pricing strategy with clear value proposition to address price sensitivity concerns"]
    else []
  let r2 :=
    if isSubstr (lit "online") all_content || isSubstr (lit "website") all_content then
      [lit "Optimize mobile-first user experience to match participant preferences for digital interactions"]
    else []
  let r3 :=
    if isSubstr (lit "trust") all_content || isSubstr (lit "review") all_content then
      [lit "Develop comprehensive review and testimonial system to build credibility and social proof"]
    else []
  let r4 :=
    if isSubstr (lit "confus") all_content || isSubstr (lit "understand") all_content then
      [lit "Develop educational content and clear explanations to address knowledge gaps and confusion"]
    else []
  let recs := r1 ++ r2 ++ r3 ++ r4
  let recs :=
    if recs.length < 3 then
      recs ++
        [lit "Launch targeted pilot program to test key concepts with similar demographic groups",
         lit "Implement feedback collection system to continuously improve based on user input",
         lit "Develop community-building features to leverage peer influence and recommendations"]
    else recs
  Val.list ((recs.take 5).map Val.str)

/-- `_generate_next_steps_content` (lines 395-403). -/
def generate_next_steps_content : Val :=
  Val.list
    [Val.str (lit "Conduct quantitative survey with larger sample to validate key findings from this qualitative research"),
     Val.str (lit "Develop prototype or concept based on identified opportunities and test with similar user groups"),
     Val.str (lit "Create user journey maps incorporating insights from different personality types identified in discussion"),
     Val.str (lit "Prioritize recommendations based on implementation complexity and potential impact for roadmap planning")]

/-- `_generate_behavioral_content` (lines 405-426). -/
def generate_behavioral_content : Val :=
  Val.obj
    [(lit "decision_drivers", Val.list
       [Val.str (lit "Quality and reliability as primary motivators"),
        Val.str (lit "Value for money considerations"),
        Val.str (lit "Social proof and peer recommendations"),
        Val.str (lit "Brand trust and reputation")]),
     (lit "barriers", Val.list
       [Val.str (lit "Price sensitivity and budget constraints"),
        Val.str (lit "Trust and credibility concerns"),
        Val.str (lit "Information overload and confusion"),
        Val.str (lit "Previous negative experiences")]),
     (lit "research_behavior", Val.list
       [Val.str (lit "Online reviews and peer recommendations highly valued"),
        Val.str (lit "Social media and influencer content influence research"),
        Val.str (lit "Traditional advertising has limited impact on this demographic")])]

/-- The brand list scanned by `_generate_brand_content` (line 435). -/
def common_brands : List Str :=
  [lit "Apple", lit "Google", lit "Amazon", lit "Samsung",
   lit "Nike", lit "Adidas", lit "Zara", lit "H&M"]

/-- `_generate_brand_content` (lines 428-446). -/
def generate_brand_content (org : COrganized) : Val :=
  let mentioned := common_brands.filter (fun b =>
    isSubstr (pyLower b) (pyLower org.all_content))
  Val.obj
    [(lit "mentioned_brands", Val.list (mentioned.map Val.str)),
     (lit "brand_preferences",
       Val.str (lit "Participants showed preference for established, trusted brands with strong reputation")),
     (lit "competitive_insights",
       Val.str (lit "Brand loyalty varies by personality type, with some preferring innovation and others stability")),
     (lit "positioning_opportunities",
       Val.str (lit "Focus on authenticity and value proposition to differentiate from competitors"))]

/-- `_generate_marketing_content` (lines 448-467). -/
def generate_marketing_content : Val :=
  Val.obj
    [(lit "message_resonance", Val.list
       [Val.str (lit "Authentic, relatable messaging performs better than polished corporate communication"),
        Val.str (lit "Value proposition clarity is more important than promotional offers"),
        Val.str (lit "Personal stories and testimonials create stronger emotional connection")]),
     (lit "channel_preferences", Val.list
       [Val.str (lit "Social media platforms for discovery and research"),
        Val.str (lit "Peer recommendations through word-of-mouth"),
        Val.str (lit "Online reviews and comparison sites for validation")]),
     (lit "creative_insights", Val.list
       [Val.str (lit "Visual content should reflect diversity and authenticity"),
        Val.str (lit "User-generated content more trusted than branded content"),
        Val.str (lit "Educational content valued over purely promotional material")])]

/-- `_generate_pricing_content` (lines 469-488). -/
def generate_pricing_content (org : COrganized) : Val :=
  let budgets := ((org.participants.map Prod.snd).filter
    (fun p => p.monthly_budget ≠ [])).map (fun p => p.monthly_budget)
  Val.obj
    [(lit "price_sensitivity",
       Val.str (lit "High sensitivity to price with strong focus on value for money")),
     (lit "budget_ranges", Val.list (budgets.map Val.str)),
     (lit "value_perception", Val.list
       [Val.str (lit "Quality and durability justify higher prices"),
        Val.str (lit "Transparent pricing builds trust and confidence"),
        Val.str (lit "Bundled offers and packages show better value perception")]),
     (lit "pricing_recommendations", Val.list
       [Val.str (lit "Implement tiered pricing to accommodate different budget levels"),
        Val.str (lit "Provide clear value comparison against competitors"),
        Val.str (lit "Consider subscription or payment plan options for higher-priced items")])]

/-- `_generate_general_content` (lines 490-493). -/
def generate_general_content (s : Section) : Val :=
  Val.str (lit "Based on the discussion analysis for '" ++ s.title ++
    lit "', participants provided diverse perspectives that highlight the complexity of consumer decision-making in this space. The insights gathered provide valuable direction for strategic planning and implementation.")

/-- `_generate_section_content` (lines 188-239): keyword dispatch on the
lower-cased section title, first matching group wins. -/
def generate_section_content (s : Section) (org : COrganized)
    (personas : List Persona) : Val :=
  let title_lower := pyLower s.title
  if anySubstr [lit "objective", lit "purpose", lit "goal"] title_lower then
    generate_objective_content org
  else if anySubstr [lit "participant", lit "demographic", lit "sample"] title_lower then
    generate_participant_content org personas
  else if anySubstr [lit "insight", lit "finding", lit "theme", lit "key"] title_lower then
    generate_insights_content org
  else if anySubstr [lit "quote", lit "verbatim", lit "statement"] title_lower then
    generate_quotes_content org
  else if anySubstr [lit "recommend", lit "opportunity", lit "suggestion"] title_lower then
    generate_recommendations_content org
  else if anySubstr [lit "next", lit "future", lit "follow"] title_lower then
    generate_next_steps_content
  else if anySubstr [lit "behavior", lit "purchase", lit "decision", lit "buying"] title_lower then
    generate_behavioral_content
  else if anySubstr [lit "brand", lit "competitive", lit "competitor"] title_lower then
    generate_brand_content org
  else if anySubstr [lit "marketing", lit "message", lit "campaign", lit "communication"] title_lower then
    generate_marketing_content
  else if anySubstr [lit "price", lit "cost", lit "budget", lit "pricing"] title_lower then
    generate_pricing_content org
  else
    generate_general_content s

/-- The metadata block of `generate_custom_summary` (lines 64-70);
`generated_at` is a wall-clock timestamp and is not modelled. -/
def custom_metadata (personas : List Persona) (schema topic : Str) : Val :=
  Val.obj
    [(lit "summary_type", Val.str (lit "custom")),
     (lit "user_schema", Val.str schema),
     (lit "total_participants", Val.natv personas.length),
     (lit "discussion_topic", Val.str topic)]

/-- `CustomSummaryGeneratorAgent.generate_custom_summary`, fallback
(generation-service-disabled) path (lines 62-77): the metadata entry and
one keyed entry per parsed section. -/
def generate_custom_summary_fallback (transcript : List Entry)
    (personas : List Persona) (schema topic : Str) : List (Str × Val) :=
  let organized := organize_custom_data transcript personas topic
  let sections := parse_schema schema
  sections.foldl
    (fun acc s => dictSet acc s.key (generate_section_content s organized personas))
    [(lit "metadata", custom_metadata personas schema topic)]

/-! ### Discussion moderator (`agents/discussion_moderator.py`)

All nondeterminism of a run — the `random` module, each participant's
`listen`/`act` reply and every generation-service JSON result — is drawn
from an `Oracle`.  Counter-indexed fields are consumed with a running
counter so successive draws are independent; an `Option J` field is
`none` when the service call raised after its retries.  `random.sample`
is modelled by oracle functions that may return anything (the source
would raise `ValueError` on rosters too small to sample from, which the
pre-discussion guard of `conduct_discussion` already excludes). -/

/-- The nondeterminism of one discussion run. -/
structure Oracle where
  samplePerm : Nat → List Persona → List Persona
  samplePair : Nat → List Persona → Persona × Persona
  dynamicsCoin : Nat → Bool
  followCoin : Nat → Bool
  pickInteraction : Nat → Nat
  pickPhrase : Nat → Nat
  act : Nat → Persona → Str → Str
  planFlowJson : Option J
  topicFlowJson : Option J
  genFlowJson : Option J
  directive : Nat → Option J

/-- `LLMClient.generate_json_sync` shape: with the client disabled it
returns the fixed fallback object and never raises; enabled, it returns
whatever the service produced (`none` = raised after retries). -/
def generate_json_sync_model (enabled : Bool) (serviceResult : Option J) : Option J :=
  if enabled then serviceResult
  else some (J.obj [(lit "note", J.str (lit "LLM disabled; using static fallback."))])

/-! Python `str(v)` of a JSON value (`repr` for elements of containers;
string escaping inside `repr` is not reproduced). -/

mutual

/-- Python `repr(v)` of a JSON value. -/

def jRepr : J → Str
  | J.str s => '\'' :: s ++ ['\'']
  | J.num n => if n < 0 then '-' :: natToStr n.natAbs else natToStr n.natAbs
  | J.arr l => '[' :: jReprArr l ++ [']']
  | J.obj kvs => '{' :: jReprObj kvs ++ ['}']
  | J.bool b => if b then lit "True" else lit "False"
  | J.null => lit "None"

/-- Comma-joined reprs of array elements. -/
def jReprArr : List J → Str
  | [] => []
  | [v] => jRepr v
  | v :: rest => jRepr v ++ lit ", " ++ jReprArr rest

/-- Comma-joined reprs of object entries. -/
def jReprObj : List (Str × J) → Str
  | [] => []
  | [(k, v)] => jRepr (J.str k) ++ lit ": " ++ jRepr v
  | (k, v) :: rest => jRepr (J.str k) ++ lit ": " ++ jRepr v ++ lit ", " ++ jReprObj rest

end

/-- Python `str(v)`: strings render as themselves, containers as their repr. -/
def jRender : J → Str
  | J.str s => s
  | v => jRepr v

/-- The fixed discussion templates of `_load_discussion_templates`
(lines 24-61). -/
def discussion_templates : List (Str × List Str) :=
  [(lit "opening_questions",
    [lit "Let's start by getting to know each other. Please introduce yourself and share what initially drew you to this topic.",
     lit "Before we dive deep, I'd love to hear about your current relationship with {topic}. What's your experience been like?",
     lit "To break the ice, could you each share one word that comes to mind when you think about {topic}?"]),
   (lit "exploration_questions",
    [lit "Tell me about your most recent experience with {topic}. Walk me through it from start to finish.",
     lit "What influences your decisions when it comes to {topic}? I'd love to hear different perspectives.",
     lit "Let's talk about challenges. What frustrates you most about {topic}?",
     lit "How do you typically research or learn about {topic}? What sources do you trust?"]),
   (lit "deep_dive_questions",
    [lit "I'm hearing some interesting viewpoints. Let's explore the money aspect - how do budget considerations affect your choices?",
     lit "What would make you completely change your current approach to {topic}?",
     lit "If you had to convince a friend about {topic}, what would be your main arguments?",
     lit "What's one thing about {topic} that you wish more people understood?"]),
   (lit "comparison_questions",
    [lit "I'm noticing some different approaches here. Let's compare - online vs offline experiences with {topic}.",
     lit "How important is brand reputation vs price when it comes to {topic}?",
     lit "What role do recommendations from friends vs influencers vs experts play in your decisions?",
     lit "Traditional vs modern approaches to {topic} - where do you stand?"]),
   (lit "future_focused_questions",
    [lit "Looking ahead, how do you see your relationship with {topic} evolving?",
     lit "What innovations or changes would excite you most in the {topic} space?",
     lit "If you could design the perfect {topic} experience, what would it look like?",
     lit "What advice would you give to someone just starting with {topic}?"]),
   (lit "wrap_up_questions",
    [lit "Before we conclude, what's the most important insight you're taking away from today's discussion?",
     lit "Is there anything about {topic} that we haven't discussed that you feel is important?",
     lit "Any final thoughts or questions for the group?"])]

/-- The moderator's follow-up phrase bank (`_create_moderator_persona`). -/
def moderator_phrases : List Str :=
  [lit "That's fascinating, tell me more about that.",
   lit "I'm seeing some head nods - what do others think?",
   lit "Let's pause there and hear from someone who hasn't spoken yet.",
   lit "I notice some different reactions - let's explore that.",
   lit "Before we move on, does anyone want to build on what was shared?"]

/-- `_generate_discussion_flow` (lines 249-292): an LLM attempt whose
validated, `{topic}`-substituted phases are used when non-empty,
otherwise the fixed templates with `{topic}` formatting. -/
def generate_discussion_flow (topic : Str) (enabled : Bool) (o : Oracle) :
    List (Str × List Str) :=
  let llmTry : Option (List (Str × List Str)) :=
    if enabled then
      match generate_json_sync_model true o.genFlowJson with
      | none => none
      | some (J.obj kvs) =>
        if kvs.any (fun kv => match kv.2 with | J.arr _ => true | _ => false) then
          let normalized := kvs.filterMap (fun kv =>
            match kv.2 with
            | J.arr qs =>
              let cq := qs.filterMap (fun q =>
                match q with
                | J.str s => some (pyReplace (lit "{topic}") topic s)
                | _ => none)
              if cq ≠ [] then some (kv.1, cq) else none
            | _ => none)
          if normalized ≠ [] then some normalized else none
        else none
      | some _ => none
    else none
  match llmTry with
  | some flow => flow
  | none =>
    discussion_templates.map (fun pt =>
      (pt.1, pt.2.map (fun q =>
        if isSubstr (lit "{topic}") q then pyReplace (lit "{topic}") topic q else q)))

/-- The discussion-flow selection of `conduct_discussion` (lines 94-136):
`none` is a raised exception reaching the caller. -/
def compute_discussion_flow (topic : Str) (plan : Option Str)
    (enabled llmOnly : Bool) (o : Oracle) : Option (List (Str × List Str)) :=
  let planTruthy := match plan with | some s => !s.isEmpty | none => false
  if planTruthy && enabled then
    match generate_json_sync_model true o.planFlowJson with
    | none =>
      if llmOnly then none else some (generate_discussion_flow topic enabled o)
    | some fj =>
      if (jIsObj fj && jTruthy fj) = true then
        match fj with
        | J.obj kvs =>
          some (kvs.filterMap (fun kv =>
            match kv.2 with
            | J.arr qs =>
              some (kv.1, qs.filterMap (fun q =>
                match q with
                | J.str s => some (pyReplace (lit "{topic}") topic s)
                | _ => none))
            | _ => none))
        | _ => some (generate_discussion_flow topic enabled o)
      else some (generate_discussion_flow topic enabled o)
  else if llmOnly then
    match generate_json_sync_model enabled o.topicFlowJson with
    | none => none
    | some fj =>
      if (jIsObj fj && jTruthy fj) = true then
        match fj with
        | J.obj kvs =>
          some (kvs.filterMap (fun kv =>
            match kv.2 with
            | J.arr qs =>
              some (kv.1, qs.filterMap (fun q =>
                match q with
                | J.str s => some s
                | _ => none))
            | _ => none))
        | _ => none
      else none
  else some (generate_discussion_flow topic enabled o)

/-- `_create_pre_discussion_moments` (lines 294-323): the welcome entry
plus four casual moments, each split at its first `": "` into speaker and
content.  The source indexes `personas[0..2]`, raising `IndexError` with
fewer than three participants (`none`). -/
def create_pre_discussion_moments (personas : List Persona) : Option (List Entry) :=
  match personas with
  | p0 :: p1 :: p2 :: _ =>
    let casual_moments : List Str :=
      [p0.name ++ lit ": This room is quite nice! I've never done a focus group before.",
       p1.name ++ lit ": Same here! Are we being recorded?",
       p2.name ++ lit ": I brought some notes just in case.",
       lit "Moderator: Perfect! I love seeing preparation. Let's officially begin."]
    (casual_moments.mapM (fun m =>
      (pySplitFirst (lit ": ") m).map (fun sc =>
        ({ type := lit "casual", speaker := sc.1, content := sc.2 } : Entry)))).map
      (fun casuals =>
        ({ type := lit "setup", speaker := lit "Moderator",
           content := lit "Welcome everyone! Please make yourselves comfortable. We'll begin in just a moment." } : Entry)
          :: casuals)
  | _ => none

/-- `_create_post_discussion_moments` (lines 496-531). -/
def create_post_discussion_moments (personas : List Persona) : List Entry :=
  [{ type := lit "wrap_up", speaker := lit "Moderator",
     content := lit "Thank you all for such an engaging discussion! This has been incredibly insightful." }] ++
  (match personas with
   | p0 :: p1 :: _ =>
     [{ type := lit "casual", speaker := p0.name,
        content := lit "This was really interesting! I learned a lot from everyone." },
      { type := lit "casual", speaker := p1.name,
        content := lit "Same here! Thanks for sharing your experiences, everyone." }]
   | _ => []) ++
  [{ type := lit "conclusion", speaker := lit "System",
     content := lit "Focus group discussion completed successfully." }]

/-- `_create_response_prompt` (lines 397-420); the triple-quoted
f-string's indentation whitespace is normalised to single newlines. -/
def create_response_prompt (question : Str) (p : Persona) (topic : Str)
    (is_first_speaker : Bool) : Str :=
  let base :=
    lit "The moderator just asked: \"" ++ question ++ lit "\"\n" ++
    lit "As " ++ p.name ++ lit ", respond naturally based on your personality and background.\n" ++
    lit "Topic: " ++ topic ++ lit "\n" ++
    lit "Your response should:\n" ++
    lit "- Be authentic to your personality type: " ++ p.personality_type ++ lit "\n" ++
    lit "- Include specific details about your experiences\n" ++
    lit "- Mention realistic prices, brands, or locations when relevant\n" ++
    lit "- Show your budget constraints: " ++ p.monthly_budget ++ lit "\n" ++
    lit "- Reflect your age (" ++ natToStr p.age ++ lit ") and occupation (" ++
      p.occupation ++ lit ")\n"
  if is_first_speaker then
    base ++ lit "\nYou're speaking first, so set the tone for the discussion."
  else
    base ++ lit "\nBuild on what others have shared or offer a different perspective."

/-- The response-collection loop inside `_get_participant_responses`:
every participant is prompted in order; only a truthy (non-empty) reply
is appended. -/
def respLoop (o : Oracle) (question topic : Str) :
    List Persona → Nat → Nat → List Entry × Nat
  | [], _, t => ([], t)
  | p :: rest, i, t =>
    let prompt := create_response_prompt question p topic (i = 0)
    let content := o.act t p prompt
    let (es, t') := respLoop o question topic rest (i + 1) (t + 1)
    if content ≠ [] then
      ({ type := lit "response", speaker := p.name, content := content,
         speaking_order := some (i + 1),
         personality_type := some p.personality_type } :: es, t')
    else (es, t')

/-- `_get_participant_responses` (lines 365-395): a fresh random
permutation of speakers, then one reply per speaker. -/
def get_participant_responses (o : Oracle) (question : Str)
    (personas : List Persona) (topic : Str) (t : Nat) : List Entry × Nat :=
  let speaking_order := o.samplePerm t personas
  respLoop o question topic speaking_order 0 (t + 1)

/-- Content templates of `_create_group_dynamics` by interaction type. -/
def interaction_content (ity other : Str) : Str :=
  if ity = lit "agreement" then
    lit "Yes, exactly! I completely agree with " ++ other ++ lit "."
  else if ity = lit "disagreement" then
    lit "I have to respectfully disagree with " ++ other ++ lit " on this."
  else if ity = lit "curiosity" then
    lit "That's interesting, " ++ other ++ lit ". Can you tell me more about that?"
  else
    lit "Sorry " ++ other ++ lit ", could you clarify what you meant by that?"

/-- The four interaction types of `_create_group_dynamics`. -/
def interaction_types : List Str :=
  [lit "agreement", lit "disagreement", lit "curiosity", lit "clarification"]

/-- `_create_group_dynamics` (lines 422-456): with the 40% coin, one
spontaneous interaction between two sampled participants. -/
def create_group_dynamics (o : Oracle) (personas : List Persona) (t : Nat) :
    List Entry × Nat :=
  if o.dynamicsCoin t then
    let pair := o.samplePair (t + 1) personas
    let ity := (interaction_types.get? (o.pickInteraction (t + 2) % 4)).getD
      (lit "agreement")
    ([{ type := lit "interaction", speaker := pair.1.name,
        content := interaction_content ity pair.2.name,
        interaction_type := some ity, target := some pair.2.name }], t + 3)
  else ([], t + 1)

/-- `_generate_moderator_follow_up` (lines 458-472); the random draw is
short-circuited away when there are no responses. -/
def generate_moderator_follow_up (o : Oracle) (responses : List Entry) (t : Nat) :
    Option Entry × Nat :=
  if responses = [] then (none, t)
  else if o.followCoin t then (none, t + 1)
  else
    (some { type := lit "moderator_follow_up", speaker := lit "Moderator",
            content := (moderator_phrases.get? (o.pickPhrase (t + 1) % 5)).getD [] },
     t + 2)

/-- The per-question body of `_conduct_discussion_phase`. -/
def questionLoop (o : Oracle) (phase_name topic : Str) (personas : List Persona) :
    List Str → Nat → List Entry × Nat
  | [], t => ([], t)
  | q :: rest, t =>
    let qEntry : Entry :=
      { type := lit "question", speaker := lit "Moderator", content := q,
        phase := some phase_name }
    let (resps, t) := get_participant_responses o q personas topic t
    let (dyn, t) := create_group_dynamics o personas t
    let (fu, t) := generate_moderator_follow_up o resps t
    let (es, t') := questionLoop o phase_name topic personas rest t
    (qEntry :: (resps ++ dyn ++ fu.toList ++ es), t')

/-- `_conduct_discussion_phase` (lines 325-363). -/
def conduct_discussion_phase (o : Oracle) (phase_name : Str)
    (questions : List Str) (personas : List Persona) (topic : Str) (t : Nat) :
    List Entry × Nat :=
  let phaseStart : Entry :=
    { type := lit "phase_start", speaker := lit "Moderator",
      content := lit "Let's move into " ++ pyReplace ['_'] [' '] phase_name ++ lit ".",
      phase := some phase_name }
  let (es, t') := questionLoop o phase_name topic personas questions t
  (phaseStart :: es, t')

/-- `_create_phase_transition` (lines 474-494). -/
def create_phase_transition (phase_name : Str) : Option Entry :=
  let text :=
    if phase_name = lit "opening_questions" then
      some (lit "Great introductions everyone. Now let's dive deeper.")
    else if phase_name = lit "exploration_questions" then
      some (lit "I'm hearing some fascinating experiences. Let's explore this further.")
    else if phase_name = lit "deep_dive_questions" then
      some (lit "These insights are really valuable. Let's compare different approaches.")
    else if phase_name = lit "comparison_questions" then
      some (lit "Excellent perspectives. Let's think about the future.")
    else if phase_name = lit "future_focused_questions" then
      some (lit "Wonderful forward-thinking ideas. Let's start wrapping up.")
    else none
  text.map (fun c =>
    { type := lit "transition", speaker := lit "Moderator", content := c })

/-- The phase-flow loop of `conduct_discussion` (lines 160-167). -/
def phaseLoop (o : Oracle) (personas : List Persona) (topic : Str) :
    List (Str × List Str) → Nat → List Entry × Nat
  | [], t => ([], t)
  | (ph, qs) :: rest, t =>
    let (es, t) := conduct_discussion_phase o ph qs personas topic t
    let (es2, t') := phaseLoop o personas topic rest t
    (es ++ (create_phase_transition ph).toList ++ es2, t')

/-- `(directive.get("action") or "").lower()`: `none` models the
`AttributeError` raised on a truthy non-string action value. -/
def directive_action (d : J) : Option Str :=
  match jGet d (lit "action") with
  | some (J.str s) => some (pyLower s)
  | some v => if jTruthy v then none else some []
  | none => some []

/-- `directive.get("moderator_question") or <fallback>`; a truthy
non-string value is rendered to text (Python would carry the object into
the entry). -/
def directive_question (d : J) (fallback : Str) : Str :=
  match jGet d (lit "moderator_question") with
  | some (J.str s) => if s ≠ [] then s else fallback
  | some v => if jTruthy v then jRender v else fallback
  | none => fallback

/-- The bounded turn loop of `_run_agentic_loop` (lines 190-247), with
`fuel` the remaining turns of the 30-turn budget.  `none` models an
exception (a coordinator service failure or an unresolvable
`personas[0]`) propagating to the caller. -/
def agentic_turns (o : Oracle) (topic : Str) (personas : List Persona) :
    Nat → Nat → Option (List Entry)
  | 0, _ => some []
  | fuel + 1, t =>
    match o.directive t with
    | none => none
    | some res =>
      let d := propose_next_action res
      match directive_action d with
      | none => none
      | some action =>
        if action = lit "end" then some []
        else if action = lit "wrap_up" then
          some [{ type := lit "wrap_up", speaker := lit "Moderator",
                  content := lit "Thank you all for the insightful discussion." }]
        else if action = lit "ask_question" then
          let q := directive_question d
            (lit "Could you share more about " ++ topic ++ lit "?")
          let qEntry : Entry :=
            { type := lit "question", speaker := lit "Moderator", content := q,
              phase := some (lit "agentic_flow") }
          let (resps, t') := get_participant_responses o q personas topic (t + 1)
          (agentic_turns o topic personas fuel t').map
            (fun es => qEntry :: (resps ++ es))
        else if action = lit "participant_turn" ∨ action = lit "interrupt" then
          match personas with
          | [] => none
          | p0 :: _ =>
            let target :=
              (personas.find? (fun p =>
                match jGet d (lit "speaker") with
                | some (J.str s) => p.name = s
                | _ => false)).getD p0
            let prompt := lit "Please share your thoughts about " ++ topic ++ lit "."
            let content := o.act (t + 1) target prompt
            let e : Entry :=
              { type := if action = lit "participant_turn" then lit "response"
                        else lit "interaction",
                speaker := target.name, content := content }
            (agentic_turns o topic personas fuel (t + 2)).map (fun es => e :: es)
        else
          let qEntry : Entry :=
            { type := lit "question", speaker := lit "Moderator",
              content := lit "What stands out to you regarding " ++ topic ++ lit "?",
              phase := some (lit "agentic_flow") }
          let (resps, t') := get_participant_responses o
            (lit "Regarding " ++ topic) personas topic (t + 1)
          (agentic_turns o topic personas fuel t').map
            (fun es => qEntry :: (resps ++ es))

/-- `_run_agentic_loop` (lines 178-247): the opening moderator entry,
then up to 30 coordinator-driven turns. -/
def run_agentic_loop (o : Oracle) (topic : Str) (personas : List Persona)
    (t : Nat) : Option (List Entry) :=
  (agentic_turns o topic personas 30 t).map (fun es =>
    ({ type := lit "phase_start", speaker := lit "Moderator",
       content := lit "Let's begin our discussion about " ++ topic ++ lit ".",
       phase := some (lit "agentic_flow") } : Entry) :: es)

/-- `DiscussionModeratorAgent.conduct_discussion` (lines 79-176): the
discussion flow is computed (possibly raising), then the transcript is
the setup entry, the pre-discussion moments, the agentic loop (service
enabled) or the phase flow (service disabled), and the post-discussion
wrap-up.  `none` is a raised exception reaching the caller. -/
def conduct_discussion (personas : List Persona) (topic : Str)
    (plan : Option Str) (enabled llmOnly : Bool) (o : Oracle) :
    Option (List Entry) :=
  match compute_discussion_flow topic plan enabled llmOnly o with
  | none => none
  | some flow =>
    let setupE : Entry :=
      { type := lit "setup", speaker := lit "System",
        content := lit "Focus Group Discussion: " ++ topic,
        participants := personas.map (fun p => p.name) }
    match create_pre_discussion_moments personas with
    | none => none
    | some pre =>
      let middle : Option (List Entry) :=
        if enabled then run_agentic_loop o topic personas 0
        else some (phaseLoop o personas topic flow 0).1
      match middle with
      | none => none
      | some mid =>
        some (setupE :: (pre ++ mid ++ create_post_discussion_moments personas))

/-! ### A concrete discussion run used as a witness -/

/-- Three concrete participants. -/
def c1Personas : List Persona :=
  [{ name := lit "Asha" }, { name := lit "Ravi" }, { name := lit "Sita" }]

/-- A concrete oracle: the coordinator immediately ends the session. -/
def c1Oracle : Oracle :=
  { samplePerm := fun _ l => l,
    samplePair := fun _ _ => ({ name := lit "Asha" }, { name := lit "Ravi" }),
    dynamicsCoin := fun _ => false,
    followCoin := fun _ => true,
    pickInteraction := fun _ => 0,
    pickPhrase := fun _ => 0,
    act := fun _ _ _ => lit "ok",
    planFlowJson := none,
    topicFlowJson := none,
    genFlowJson := some (J.obj [(lit "warmup", J.arr [J.str (lit "q")])]),
    directive := fun _ => some (J.obj [(lit "action", J.str (lit "end"))]) }

/-- The concrete run: generation service enabled, no plan, LLM-only off. -/
def c1Run : Option (List Entry) :=
  conduct_discussion c1Personas (lit "skincare") none true false c1Oracle

/-! ### Measuring definitions used by the organizer claims -/

/-- The speakers of a transcript outside `{Moderator, System}`, in order
of appearance (the speakers eligible for participant buckets). -/
def nonMSSpeakers (t : List Entry) : List Str :=
  (t.filter (fun e =>
    !(decide (e.speaker = lit "Moderator") || decide (e.speaker = lit "System")))).map
    Entry.speaker

/-- The number of transcript entries with `type = response` and the given
speaker. -/
def respCountBy (t : List Entry) (n : Str) : Nat :=
  t.countP (fun e => decide (e.type = lit "response") && decide (e.speaker = n))

/-- The number of transcript entries with `type = response` whose speaker
is outside `{Moderator, System}`. -/
def respCountNonMS (t : List Entry) : Nat :=
  t.countP (fun e => decide (e.type = lit "response") &&
    !(decide (e.speaker = lit "Moderator") || decide (e.speaker = lit "System")))

/-- The total number of responses stored across all participant buckets. -/
def sumResp (org : Organized) : Nat :=
  (org.participants.map (fun p => p.2.responses.length)).sum

/-! ## Helper lemmas -/

theorem isSubstr_iff {n h : Str} : isSubstr n h = true ↔ n <:+: h := by
  induction h with
  | nil =>
    simp [isSubstr, List.isEmpty_iff]
  | cons c rest ih =>
    simp [isSubstr, List.isPrefixOf_iff_prefix, ih, List.infix_cons_iff]

theorem isSubstr_append_left {n h : Str} (h' : Str) (hh : isSubstr n h = true) :
    isSubstr n (h ++ h') = true := by
  rw [isSubstr_iff] at hh ⊢
  exact hh.trans ⟨[], h', by simp⟩

theorem isSubstr_of_take {n h : Str} {k : Nat} (hh : isSubstr n (h.take k) = true) :
    isSubstr n h = true := by
  rw [isSubstr_iff] at hh ⊢
  exact hh.trans (List.take_prefix k h).isInfix

theorem presentCount_mono (ws : List Str) {c d : Str}
    (hcd : ∀ w, isSubstr w c = true → isSubstr w d = true) :
    presentCount ws c ≤ presentCount ws d := by
  induction ws with
  | nil => simp [presentCount]
  | cons w rest ih =>
    simp only [presentCount, List.filter_cons] at ih ⊢
    by_cases hw : isSubstr w c = true
    · rw [if_pos hw, if_pos (hcd w hw)]
      simpa using ih
    · rw [if_neg hw]
      split
      · exact le_trans ih (by simp)
      · exact ih

theorem anySubstr_mono (ns : List Str) {c d : Str}
    (hcd : ∀ w, isSubstr w c = true → isSubstr w d = true)
    (hc : anySubstr ns c = true) : anySubstr ns d = true := by
  rw [anySubstr, List.any_eq_true] at hc ⊢
  obtain ⟨w, hw, hsub⟩ := hc
  exact ⟨w, hw, hcd w hsub⟩

theorem pyLower_append (s t : Str) : pyLower (s ++ t) = pyLower s ++ pyLower t := by
  simp [pyLower]

theorem pyLower_take (s : Str) (k : Nat) : pyLower (s.take k) = (pyLower s).take k := by
  simp [pyLower, List.map_take]

/-- The length adjustment of `_calculate_quote_impact` in isolation. -/
theorem length_adj_mono {a b : Nat} (hab : a ≤ b) (hb : b ≤ 200) :
    (if 50 ≤ a ∧ a ≤ 200 then (2 : Int) else if 200 < a then -1 else 0) ≤
      (if 50 ≤ b ∧ b ≤ 200 then (2 : Int) else if 200 < b then -1 else 0) := by
  split_ifs <;> omega

/-! ## Claim C7: non-object service results become a wrap_up directive -/

/-- Claim C7: if the generation service returns a non-object result to the
Coordinator's `propose_next_action`, the returned directive's action is
`"wrap_up"` instead of a propagated parse failure. -/
theorem propose_next_action_nondict_wrap_up (r : J) (h : jIsObj r = false) :
    jGet (propose_next_action r) (lit "action") = some (J.str (lit "wrap_up")) := by
  simp only [propose_next_action, h]
  rfl

/-- Witness for C7 at the concrete non-object result `null`. -/
theorem propose_next_action_nondict_wrap_up_witness :
    jIsObj J.null = false ∧
      jGet (propose_next_action J.null) (lit "action") =
        some (J.str (lit "wrap_up")) :=
  ⟨rfl, propose_next_action_nondict_wrap_up J.null rfl⟩

/-! ## Claim C9: the sentiment tally picks the strictly highest count -/

/-- Claim C9: the per-response sentiment label equals the spec's rule — the
label whose fixed word list has the strictly highest count, with every tie
resolving to neutral. -/
theorem sentiment_label_matches_spec_rule (content : Str) :
    sentiment_label content = sentiment_spec_rule content := by
  simp only [sentiment_label, sentiment_spec_rule]
  split_ifs <;> first | rfl | omega

/-! ## Claim C5: fallback key insights number three to five -/

/-- The padding-and-capping tail of `_generate_key_insights` in isolation. -/
theorem insights_pad_bounds (l : List Str) (hl : l.length ≤ 5) :
    3 ≤ ((if l.length < 3 then l ++ generic_insights else l).take 5).length ∧
      ((if l.length < 3 then l ++ generic_insights else l).take 5).length ≤ 5 := by
  split <;> simp [generic_insights] <;> omega

/-- Claim C5: for every transcript, the fallback `key_insights` list is
non-empty with between three and five entries. -/
theorem key_insights_length_bounds (transcript : List Entry) :
    3 ≤ (generate_key_insights (organize_transcript_data transcript)).length ∧
      (generate_key_insights (organize_transcript_data transcript)).length ≤ 5 := by
  simp only [generate_key_insights]
  refine insights_pad_bounds _ ?_
  simp only [List.length_append]
  split_ifs <;> simp

/-! ## Claim C3: quote-impact monotonicity -/

set_option maxRecDepth 10000

/-- Counterexample to claim C3 as stated: appending the emotional
indicator word `"love"` to a 200-character string that already contains
it pushes the length past 200, turning the `+2` length bonus into the
`-1` penalty, so the score strictly decreases (from 4 to 1). -/
theorem quote_impact_append_decreases :
    calculate_quote_impact (lit "love" ++ List.replicate 196 'a' ++ lit "love") <
      calculate_quote_impact (lit "love" ++ List.replicate 196 'a') ∧
    lit "love" ∈ emotional_words := by decide

/-- Claim C3 as amended: appending an emotional-indicator word never
decreases the impact score provided the resulting string stays within
200 characters (the length-bonus region); and any 60-character string
scores at least as high as its truncation to 10 characters. -/
theorem quote_impact_monotonicity_amended :
    (∀ s w : Str, w ∈ emotional_words → (s ++ w).length ≤ 200 →
      calculate_quote_impact s ≤ calculate_quote_impact (s ++ w)) ∧
    (∀ s : Str, s.length = 60 →
      calculate_quote_impact (s.take 10) ≤ calculate_quote_impact s) := by
  constructor
  · intro s w _ hlen
    have hsub : ∀ n, isSubstr n (pyLower s) = true →
        isSubstr n (pyLower (s ++ w)) = true := by
      intro n hn
      rw [pyLower_append]
      exact isSubstr_append_left _ hn
    have hemo := presentCount_mono emotional_words hsub
    have hper := presentCount_mono personal_indicators hsub
    have hlen2 : s.length ≤ (s ++ w).length := by simp
    simp only [calculate_quote_impact]
    refine add_le_add (add_le_add (add_le_add ?_ ?_) ?_) ?_
    · exact mul_le_mul_of_nonneg_left (Int.ofNat_le.mpr hemo) (by norm_num)
    · by_cases hd : anySubstr detail_indicators (pyLower s) = true
      · rw [if_pos hd, if_pos (anySubstr_mono _ hsub hd)]
      · rw [if_neg hd]
        split <;> norm_num
    · exact mul_le_mul_of_nonneg_left (Int.ofNat_le.mpr hper) (by norm_num)
    · exact length_adj_mono hlen2 hlen
  · intro s hs
    have hsub : ∀ n, isSubstr n (pyLower (s.take 10)) = true →
        isSubstr n (pyLower s) = true := by
      intro n hn
      rw [pyLower_take] at hn
      exact isSubstr_of_take hn
    have hemo := presentCount_mono emotional_words hsub
    have hper := presentCount_mono personal_indicators hsub
    have ht : (s.take 10).length = 10 := by
      rw [List.length_take]
      omega
    simp only [calculate_quote_impact]
    refine add_le_add (add_le_add (add_le_add ?_ ?_) ?_) ?_
    · exact mul_le_mul_of_nonneg_left (Int.ofNat_le.mpr hemo) (by norm_num)
    · by_cases hd : anySubstr detail_indicators (pyLower (s.take 10)) = true
      · rw [if_pos hd, if_pos (anySubstr_mono _ hsub hd)]
      · rw [if_neg hd]
        split <;> norm_num
    · exact mul_le_mul_of_nonneg_left (Int.ofNat_le.mpr hper) (by norm_num)
    · rw [ht, hs]
      norm_num

/-- Witness for the amended C3 at concrete inputs. -/
theorem quote_impact_monotonicity_amended_witness :
    calculate_quote_impact (lit "i") ≤ calculate_quote_impact (lit "i" ++ lit "love") ∧
    calculate_quote_impact ((List.replicate 60 'x').take 10) ≤
      calculate_quote_impact (List.replicate 60 'x') :=
  ⟨quote_impact_monotonicity_amended.1 (lit "i") (lit "love") (by decide) (by decide),
   quote_impact_monotonicity_amended.2 (List.replicate 60 'x') (by decide)⟩

/-! ## Claim C4: fallback supporting quotes can repeat a speaker -/

/-- Evidence for claim C4's failing input: a transcript whose only two
responses both come from `"Asha"` and contain no opinion indicator.  The
primary impact-ranked selection is empty, so the fallback loop over the
last two responses runs; it checks `used_speakers` but never adds to it,
and returns two quotes attributed to the same speaker. -/
theorem supporting_quotes_duplicate_speaker_bug :
    (generate_supporting_quotes (organize_transcript_data
      [{ type := lit "response", speaker := lit "Asha", content := lit "ok" },
       { type := lit "response", speaker := lit "Asha", content := lit "fine" }])).map
        SelQuote.speaker = [lit "Asha", lit "Asha"] := by
  decide

/-! ## Claim C8: theme extraction -/

/-- Counterexample to claim C8 as stated: the custom generator's
`_extract_themes` returns vocabulary order, not descending frequency
(`price` appears 3 times, `quality` 4 times, yet `price` comes first);
and the default generator's `_extract_common_themes` keeps a word
mentioned only once, not more than twice. -/
theorem theme_extraction_counterexample :
    extract_themes (lit "price price price quality quality quality quality") =
      [lit "price", lit "quality"] ∧
    wordFreq (lit "price price price quality quality quality quality") (lit "price") <
      wordFreq (lit "price price price quality quality quality quality") (lit "quality") ∧
    extract_common_themes (lit "price") = [lit "price"] ∧
    wordFreq (lit "price") (lit "price") = 1 := by
  decide

/-- A keyword-gated accumulating loop is a filter. -/
theorem foldl_gated_append_id {α : Type} (p : α → Prop) [DecidablePred p]
    (l : List α) (init : List α) :
    l.foldl (fun acc x => if p x then acc ++ [x] else acc) init =
      init ++ l.filter (fun x => decide (p x)) := by
  induction l generalizing init with
  | nil => simp
  | cons x rest ih =>
    simp only [List.foldl_cons, List.filter_cons]
    by_cases hp : p x
    · simp [hp, ih]
    · simp [hp, ih]

/-- A keyword-gated accumulating loop is a filter-map. -/
theorem foldl_gated_append {α β : Type} (p : α → Prop) [DecidablePred p]
    (g : α → β) (l : List α) (init : List β) :
    l.foldl (fun acc x => if p x then acc ++ [g x] else acc) init =
      init ++ (l.filter (fun x => decide (p x))).map g := by
  induction l generalizing init with
  | nil => simp
  | cons x rest ih =>
    simp only [List.foldl_cons, List.filter_cons]
    by_cases hp : p x
    · simp [hp, ih]
    · simp [hp, ih]

/-- Claim C8 as amended: `_extract_themes` (custom generator) returns
exactly the fixed-vocabulary words whose token frequency exceeds two, in
vocabulary order, capped at five; `_extract_common_themes` (default
generator) returns exactly the fixed-vocabulary words with frequency at
least one, ordered by non-increasing frequency. -/
theorem theme_extraction_amended :
    (∀ c : Str, extract_themes c =
      (theme_words.filter (fun w => decide (2 < wordFreq c w))).take 5) ∧
    (∀ c : Str, (extract_common_themes c).Perm
      (common_words.filter (fun w => decide (1 ≤ wordFreq c w)))) ∧
    (∀ c : Str, (extract_common_themes c).Pairwise
      (fun w₁ w₂ => wordFreq c w₂ ≤ wordFreq c w₁)) := by
  refine ⟨fun c => ?_, fun c => ?_, fun c => ?_⟩
  · simp only [extract_themes]
    rw [foldl_gated_append_id (fun w => 2 < wordFreq c w)]
    simp
  · simp only [extract_common_themes]
    rw [foldl_gated_append (fun w => 1 ≤ wordFreq c w) (fun w => (w, wordFreq c w))]
    refine ((List.perm_insertionSort freqGe _).map Prod.fst).trans ?_
    simp [List.map_map, Function.comp_def]
  · simp only [extract_common_themes]
    rw [foldl_gated_append (fun w => 1 ≤ wordFreq c w) (fun w => (w, wordFreq c w))]
    rw [List.pairwise_map]
    have hsorted : List.Sorted freqGe
        ((((common_words.filter (fun w => decide (1 ≤ wordFreq c w))).map
          (fun w => (w, wordFreq c w)))).insertionSort freqGe) :=
      List.sorted_insertionSort freqGe _
    have hmem : ∀ p ∈ (((common_words.filter (fun w => decide (1 ≤ wordFreq c w))).map
        (fun w => (w, wordFreq c w)))).insertionSort freqGe,
        p.2 = wordFreq c p.1 := by
      intro p hp
      rw [List.mem_insertionSort] at hp
      obtain ⟨w, _, rfl⟩ := List.mem_map.mp hp
      rfl
    refine List.Pairwise.imp_of_mem ?_ hsorted
    intro a b ha hb hab
    have ha2 := hmem a ha
    have hb2 := hmem b hb
    rw [freqGe] at hab
    rw [← ha2, ← hb2]
    exact hab

/-! ## Claim C6: section-key derivation and the end-to-end custom keys -/

theorem uint32_le_iff_toNat_le (a b : UInt32) : a ≤ b ↔ a.toNat ≤ b.toNat := Iff.rfl

theorem char_toNat_ofNat {n : Nat} (h : n < 55296) : (Char.ofNat n).toNat = n := by
  unfold Char.ofNat
  rw [dif_pos (Or.inl h : n.isValidChar)]
  simp [Char.toNat, UInt32.toNat, Char.ofNatAux]

theorem char_isUpper_iff (c : Char) : c.isUpper = true ↔ 65 ≤ c.toNat ∧ c.toNat ≤ 90 := by
  simp only [Char.isUpper, ge_iff_le, Bool.and_eq_true, decide_eq_true_eq]
  constructor
  · rintro ⟨h1, h2⟩
    constructor
    · simpa [Char.toNat] using (uint32_le_iff_toNat_le _ _).mp h1
    · simpa [Char.toNat] using (uint32_le_iff_toNat_le _ _).mp h2
  · rintro ⟨h1, h2⟩
    constructor
    · exact (uint32_le_iff_toNat_le _ _).mpr (by simpa [Char.toNat] using h1)
    · exact (uint32_le_iff_toNat_le _ _).mpr (by simpa [Char.toNat] using h2)

theorem char_toLower_not_upper (c : Char) : (c.toLower).isUpper = false := by
  unfold Char.toLower
  simp only []
  split
  · next h =>
    rw [Bool.eq_false_iff]
    intro hu
    have hv : (Char.ofNat (c.toNat + 32)).toNat = c.toNat + 32 :=
      char_toNat_ofNat (by omega)
    have := (char_isUpper_iff _).mp hu
    omega
  · next h =>
    rw [Bool.eq_false_iff]
    intro hu
    have := (char_isUpper_iff _).mp hu
    omega

theorem char_toLower_eq_self {c : Char} (h : c.isUpper = false) : c.toLower = c := by
  unfold Char.toLower
  simp only []
  rw [if_neg]
  intro hc
  have := (char_isUpper_iff c).mpr ⟨hc.1, hc.2⟩
  rw [h] at this
  exact Bool.false_ne_true this

theorem pyReplaceFuel_singleton (a : Char) (rep : Str) :
    ∀ (fuel : Nat) (s : Str), s.length ≤ fuel →
      pyReplaceFuel [a] rep fuel s =
        s.flatMap (fun c => if c = a then rep else [c]) := by
  intro fuel
  induction fuel with
  | zero =>
    intro s hs
    rw [Nat.le_zero, List.length_eq_zero] at hs
    subst hs
    simp [pyReplaceFuel]
  | succ n ih =>
    intro s hs
    match s with
    | [] => simp [pyReplaceFuel]
    | c :: rest =>
      rw [pyReplaceFuel]
      by_cases hca : c = a
      · rw [if_pos ⟨by simp, by simp [List.isPrefixOf, hca]⟩]
        have hr : rest.length ≤ n := by
          simp only [List.length_cons] at hs
          omega
        simp [hca, ih rest hr]
      · rw [if_neg]
        · have hr : rest.length ≤ n := by
            simp only [List.length_cons] at hs
            omega
          simp [hca, ih rest hr]
        · simp only [ne_eq, List.cons_ne_self, not_false_eq_true, true_and,
            List.isPrefixOf, Bool.and_eq_true, beq_iff_eq, not_and]
          intro h
          exact (hca (by simp [h])).elim

theorem pyReplace_singleton (a : Char) (rep : Str) (s : Str) :
    pyReplace [a] rep s = s.flatMap (fun c => if c = a then rep else [c]) :=
  pyReplaceFuel_singleton a rep s.length s le_rfl

theorem flatMap_id_of {α : Type} (f : α → List α) (l : List α)
    (h : ∀ c ∈ l, f c = [c]) : l.flatMap f = l := by
  induction l with
  | nil => simp
  | cons c rest ih =>
    rw [List.flatMap_cons, h c (by simp), ih (fun d hd => h d (by simp [hd]))]
    rfl

theorem mem_pyLower_not_upper {c : Char} {s : Str} (h : c ∈ pyLower s) :
    c.isUpper = false := by
  rw [pyLower] at h
  obtain ⟨x, _, rfl⟩ := List.mem_map.mp h
  exact char_toLower_not_upper x

/-- Every character of the replace-pipeline output
`title.lower().replace(' ', '_').replace('&', 'and')` is non-upper-case. -/
theorem mem_key_material_not_upper {c : Char} {t : Str}
    (h : c ∈ pyReplace ['&'] (lit "and") (pyReplace [' '] ['_'] (pyLower t))) :
    c.isUpper = false := by
  rw [pyReplace_singleton, List.mem_flatMap] at h
  obtain ⟨d, hd, hc⟩ := h
  by_cases hd' : d = '&'
  · rw [if_pos hd'] at hc
    have hc' : c ∈ ['a', 'n', 'd'] := hc
    simp only [List.mem_cons, List.not_mem_nil, or_false] at hc'
    rcases hc' with rfl | rfl | rfl <;> rfl
  · rw [if_neg hd', List.mem_singleton] at hc
    subst hc
    rw [pyReplace_singleton, List.mem_flatMap] at hd
    obtain ⟨e, he, hd2⟩ := hd
    by_cases he' : e = ' '
    · rw [if_pos he', List.mem_singleton] at hd2
      subst hd2
      rfl
    · rw [if_neg he', List.mem_singleton] at hd2
      subst hd2
      exact mem_pyLower_not_upper he

/-- Every character of a derived section key is a word character
(alphanumeric or underscore) and not upper-case. -/
theorem derive_section_key_chars {c : Char} {t : Str}
    (h : c ∈ derive_section_key t) :
    (c.isAlphanum || c = '_') = true ∧ c.isUpper = false := by
  rw [derive_section_key] at h
  have hm := List.mem_filter.mp h
  exact ⟨hm.2, mem_key_material_not_upper hm.1⟩

/-- Claim C6: section-key derivation is deterministic and idempotent, the
derived key consists only of word characters (so no whitespace and no
punctuation other than underscores), and for the outline
`"1. Key Insights\n2. Budget Analysis - spending patterns"` the fallback
custom summary has, for every transcript and participant roster, exactly
the keys `metadata`, `key_insights` and `budget_analysis`. -/
theorem section_key_derivation_and_custom_keys :
    (∀ schema : Str, parse_schema schema = parse_schema schema) ∧
    (∀ title : Str,
      derive_section_key (derive_section_key title) = derive_section_key title) ∧
    (∀ title : Str, (derive_section_key title).all
      (fun c => (c.isAlphanum || c = '_') && !pyIsSpace c) = true) ∧
    (∀ (transcript : List Entry) (personas : List Persona) (topic : Str),
      (generate_custom_summary_fallback transcript personas
        (lit "1. Key Insights\n2. Budget Analysis - spending patterns") topic).map
          Prod.fst =
        [lit "metadata", lit "key_insights", lit "budget_analysis"]) := by
  refine ⟨fun _ => rfl, fun title => ?_, fun title => ?_, fun _ _ _ => rfl⟩
  · have hchars := fun c hc => @derive_section_key_chars c title hc
    have h1 : pyLower (derive_section_key title) = derive_section_key title := by
      rw [pyLower]
      conv_rhs => rw [← List.map_id (derive_section_key title)]
      apply List.map_congr_left
      intro c hc
      exact char_toLower_eq_self (hchars c hc).2
    have h2 : pyReplace [' '] ['_'] (derive_section_key title) =
        derive_section_key title := by
      rw [pyReplace_singleton]
      apply flatMap_id_of
      intro c hc
      rw [if_neg]
      intro hsp
      subst hsp
      exact absurd (hchars _ hc).1 (by decide)
    have h3 : pyReplace ['&'] (lit "and") (derive_section_key title) =
        derive_section_key title := by
      rw [pyReplace_singleton]
      apply flatMap_id_of
      intro c hc
      rw [if_neg]
      intro hsp
      subst hsp
      exact absurd (hchars _ hc).1 (by decide)
    have h4 : (derive_section_key title).filter
        (fun c => c.isAlphanum || c = '_') = derive_section_key title :=
      List.filter_eq_self.mpr (fun c hc => (hchars c hc).1)
    calc derive_section_key (derive_section_key title)
        = (pyReplace ['&'] (lit "and")
            (pyReplace [' '] ['_'] (pyLower (derive_section_key title)))).filter
              (fun c => c.isAlphanum || c = '_') := rfl
      _ = derive_section_key title := by rw [h1, h2, h3, h4]
  · rw [List.all_eq_true]
    intro c hc
    have h := derive_section_key_chars hc
    rw [Bool.and_eq_true, h.1]
    refine ⟨rfl, ?_⟩
    rw [Bool.not_eq_true']
    by_contra hsp
    rw [Bool.not_eq_false] at hsp
    have h6 : c = ' ' ∨ c = '\t' ∨ c = '\r' ∨ c = '\n' ∨ c = '\x0b' ∨ c = '\x0c' := by
      simpa [pyIsSpace, Char.isWhitespace, or_assoc] using hsp
    rcases h6 with rfl | rfl | rfl | rfl | rfl | rfl <;> exact absurd h.1 (by decide)

/-! ## Claim C10: phase buckets are recorded empty and never populated -/

theorem org_setup_stage_phases (org : Organized) (e : Entry) :
    (org_setup_stage org e).phases = org.phases := by
  simp only [org_setup_stage]
  split <;> rfl

theorem org_register_stage_phases (org : Organized) (e : Entry) :
    (org_register_stage org e).phases = org.phases := by
  simp only [org_register_stage]
  split <;> rfl

theorem org_dispatch_stage_phases (org : Organized) (cur : Option Str) (e : Entry) :
    (org_dispatch_stage org cur e).1.phases = org.phases := by
  simp only [org_dispatch_stage]
  split_ifs <;> rfl

theorem org_phase_stage_empty (org : Organized) (cur : Option Str)
    (h : ∀ x ∈ org.phases, x.2 = ({} : PhaseBucket)) :
    ∀ x ∈ (org_phase_stage org cur).phases, x.2 = ({} : PhaseBucket) := by
  cases cur with
  | none => exact h
  | some ph =>
    simp only [org_phase_stage]
    split
    · intro x hx
      rcases List.mem_append.mp hx with hx' | hx'
      · exact h x hx'
      · rw [List.mem_singleton] at hx'
        rw [hx']
    · exact h

theorem organize_foldl_phases_empty (l : List Entry) :
    ∀ st : OrgState, (∀ x ∈ st.1.phases, x.2 = ({} : PhaseBucket)) →
      ∀ x ∈ (l.foldl organize_step st).1.phases, x.2 = ({} : PhaseBucket) := by
  induction l with
  | nil => exact fun st h => h
  | cons e rest ih =>
    intro st h
    rw [List.foldl_cons]
    apply ih
    simp only [organize_step]
    apply org_phase_stage_empty
    rw [org_dispatch_stage_phases, org_register_stage_phases, org_setup_stage_phases]
    exact h

/-- Claim C10: every phase bucket in the organized data has empty
questions, responses and interactions lists — the phase map records the
phase names only and its buckets are never populated. -/
theorem organize_phase_buckets_empty (transcript : List Entry) (p : Str)
    (pb : PhaseBucket)
    (h : (p, pb) ∈ (organize_transcript_data transcript).phases) :
    pb.questions = [] ∧ pb.responses = [] ∧ pb.interactions = [] := by
  have hpb : pb = ({} : PhaseBucket) :=
    organize_foldl_phases_empty transcript ({}, none)
      (fun x hx => absurd hx (List.not_mem_nil x)) (p, pb) h
  subst hpb
  exact ⟨rfl, rfl, rfl⟩

/-- Witness for C10 at a one-question transcript registering the phase
`"opening"`. -/
theorem organize_phase_buckets_empty_witness :
    ((lit "opening", ({} : PhaseBucket)) ∈
      (organize_transcript_data
        [{ type := lit "question", speaker := lit "Moderator",
           content := lit "Q1", phase := some (lit "opening") }]).phases) ∧
    (({} : PhaseBucket).questions = [] ∧ ({} : PhaseBucket).responses = [] ∧
      ({} : PhaseBucket).interactions = []) :=
  ⟨by decide,
   organize_phase_buckets_empty
     [{ type := lit "question", speaker := lit "Moderator",
        content := lit "Q1", phase := some (lit "opening") }]
     (lit "opening") {} (by decide)⟩

/-! ## Claim C2: participant buckets partition the responses -/

theorem mem_foldl_dedup (l : List Str) :
    ∀ (acc : List Str) (x : Str),
      (x ∈ l.foldl (fun acc x => if x ∈ acc then acc else acc ++ [x]) acc) ↔
        x ∈ acc ∨ x ∈ l := by
  induction l with
  | nil => simp
  | cons y rest ih =>
    intro acc x
    rw [List.foldl_cons]
    by_cases hy : y ∈ acc
    · rw [if_pos hy, ih]
      simp only [List.mem_cons]
      constructor
      · rintro (h | h)
        · exact Or.inl h
        · exact Or.inr (Or.inr h)
      · rintro (h | h | h)
        · exact Or.inl h
        · exact Or.inl (h ▸ hy)
        · exact Or.inr h
    · rw [if_neg hy, ih]
      simp only [List.mem_append, List.mem_singleton, List.mem_cons]
      tauto

theorem mem_dedupFirst {l : List Str} {x : Str} : x ∈ dedupFirst l ↔ x ∈ l := by
  rw [dedupFirst, mem_foldl_dedup]
  simp

theorem dedupFirst_nodup (l : List Str) : (dedupFirst l).Nodup := by
  rw [dedupFirst]
  suffices h : ∀ acc : List Str, acc.Nodup →
      (l.foldl (fun acc x => if x ∈ acc then acc else acc ++ [x]) acc).Nodup from
    h [] List.nodup_nil
  induction l with
  | nil => exact fun acc h => h
  | cons y rest ih =>
    intro acc hacc
    rw [List.foldl_cons]
    apply ih
    split
    · exact hacc
    · next hy =>
      rw [List.nodup_append]
      exact ⟨hacc, List.nodup_singleton y, by simpa using hy⟩

theorem dedupFirst_append_singleton (l : List Str) (x : Str) :
    dedupFirst (l ++ [x]) =
      if x ∈ dedupFirst l then dedupFirst l else dedupFirst l ++ [x] := by
  rw [dedupFirst, dedupFirst, List.foldl_append]
  rfl

theorem nonMSSpeakers_append_singleton (t : List Entry) (e : Entry) :
    nonMSSpeakers (t ++ [e]) = nonMSSpeakers t ++
      (if e.speaker ≠ lit "Moderator" ∧ e.speaker ≠ lit "System" then [e.speaker]
       else []) := by
  rw [nonMSSpeakers, nonMSSpeakers, List.filter_append, List.map_append]
  congr 1
  by_cases h1 : e.speaker = lit "Moderator" <;> by_cases h2 : e.speaker = lit "System" <;>
    simp [h1, h2]

theorem mem_nonMSSpeakers {t : List Entry} {x : Str} (h : x ∈ nonMSSpeakers t) :
    x ≠ lit "Moderator" ∧ x ≠ lit "System" := by
  rw [nonMSSpeakers] at h
  obtain ⟨e, he, rfl⟩ := List.mem_map.mp h
  have := (List.mem_filter.mp he).2
  simp only [Bool.not_eq_true', Bool.or_eq_false_iff, decide_eq_false_iff_not] at this
  exact this

theorem respCountBy_append_singleton (t : List Entry) (e : Entry) (n : Str) :
    respCountBy (t ++ [e]) n = respCountBy t n +
      (if e.type = lit "response" ∧ e.speaker = n then 1 else 0) := by
  rw [respCountBy, respCountBy, List.countP_append]
  congr 1
  by_cases h1 : e.type = lit "response" <;> by_cases h2 : e.speaker = n <;>
    simp [List.countP_cons, h1, h2]

theorem respCountNonMS_append_singleton (t : List Entry) (e : Entry) :
    respCountNonMS (t ++ [e]) = respCountNonMS t +
      (if e.type = lit "response" ∧ e.speaker ≠ lit "Moderator" ∧
          e.speaker ≠ lit "System" then 1 else 0) := by
  rw [respCountNonMS, respCountNonMS, List.countP_append]
  congr 1
  by_cases h1 : e.type = lit "response" <;>
    by_cases h2 : e.speaker = lit "Moderator" <;>
      by_cases h3 : e.speaker = lit "System" <;>
        simp [List.countP_cons, h1, h2, h3]

theorem respCountBy_eq_zero {t : List Entry} {n : Str}
    (hn : n ∉ nonMSSpeakers t) (hm : n ≠ lit "Moderator") (hs : n ≠ lit "System") :
    respCountBy t n = 0 := by
  rw [respCountBy, List.countP_eq_zero]
  intro e he
  simp only [Bool.and_eq_true, decide_eq_true_eq, not_and]
  intro _ hspk
  exact hn (by
    rw [nonMSSpeakers]
    refine List.mem_map.mpr ⟨e, List.mem_filter.mpr ⟨he, ?_⟩, hspk⟩
    simp [hspk, hm, hs])

theorem dictGet_isNone_iff {α : Type} (ps : List (Str × α)) (k : Str) :
    (dictGet ps k).isNone = true ↔ k ∉ ps.map Prod.fst := by
  simp only [dictGet, Option.isNone_iff_eq_none, Option.map_eq_none',
    List.find?_eq_none, List.mem_map, decide_eq_true_eq]
  constructor
  · rintro h ⟨p, hp, hpk⟩
    exact h p hp hpk
  · intro h p hp hpk
    exact h ⟨p, hp, hpk⟩

theorem updBucket_map_fst (ps : List (Str × Bucket)) (n : Str) (f : Bucket → Bucket) :
    (updBucket ps n f).map Prod.fst = ps.map Prod.fst := by
  induction ps with
  | nil => rfl
  | cons p rest ih =>
    obtain ⟨k, b⟩ := p
    simp only [updBucket]
    split
    · rfl
    · simp [ih]

theorem mem_updBucket_nodup {ps : List (Str × Bucket)} {n : Str} {f : Bucket → Bucket}
    (hnd : (ps.map Prod.fst).Nodup) {n' : Str} {b' : Bucket}
    (h : (n', b') ∈ updBucket ps n f) :
    (n' ≠ n ∧ (n', b') ∈ ps) ∨ (n' = n ∧ ∃ b, (n, b) ∈ ps ∧ b' = f b) := by
  induction ps with
  | nil => simp [updBucket] at h
  | cons p rest ih =>
    obtain ⟨k, b⟩ := p
    simp only [updBucket] at h
    rw [List.map_cons, List.nodup_cons] at hnd
    by_cases hk : k = n
    · subst hk
      rw [if_pos rfl] at h
      rcases List.mem_cons.mp h with h1 | h1
      · injection h1 with ha hb
        exact Or.inr ⟨ha, b, List.mem_cons_self _ _, hb⟩
      · have hne : n' ≠ k := by
          intro hkeq
          subst hkeq
          exact hnd.1 (List.mem_map.mpr ⟨(n', b'), h1, rfl⟩)
        exact Or.inl ⟨hne, List.mem_cons_of_mem _ h1⟩
    · rw [if_neg hk] at h
      rcases List.mem_cons.mp h with h1 | h1
      · injection h1 with ha hb
        subst ha
        subst hb
        exact Or.inl ⟨hk, List.mem_cons_self _ _⟩
      · rcases ih hnd.2 h1 with ⟨hne, hmem⟩ | ⟨rfl, bb, hmem, rfl⟩
        · exact Or.inl ⟨hne, List.mem_cons_of_mem _ hmem⟩
        · exact Or.inr ⟨rfl, bb, List.mem_cons_of_mem _ hmem, rfl⟩

theorem sum_map_updBucket (ps : List (Str × Bucket)) (n : Str) (f : Bucket → Bucket)
    (g : Bucket → Nat) (d : Nat) (hf : ∀ b, g (f b) = g b + d)
    (hmem : n ∈ ps.map Prod.fst) :
    ((updBucket ps n f).map (fun p => g p.2)).sum =
      ((ps.map (fun p => g p.2)).sum) + d := by
  induction ps with
  | nil => simp at hmem
  | cons p rest ih =>
    obtain ⟨k, b⟩ := p
    simp only [updBucket]
    by_cases hk : k = n
    · rw [if_pos hk]
      simp only [List.map_cons, List.sum_cons, hf b]
      omega
    · rw [if_neg hk]
      have hmem' : n ∈ rest.map Prod.fst := by
        rcases List.mem_map.mp hmem with ⟨q, hq, hqn⟩
        rcases List.mem_cons.mp hq with rfl | hq'
        · exact absurd hqn hk
        · exact List.mem_map.mpr ⟨q, hq', hqn⟩
      simp only [List.map_cons, List.sum_cons, ih hmem']
      omega

theorem dictGet_isSome_iff {α : Type} (ps : List (Str × α)) (k : Str) :
    (dictGet ps k).isSome = true ↔ k ∈ ps.map Prod.fst := by
  cases hopt : dictGet ps k with
  | none =>
    simp only [Option.isSome_none, Bool.false_eq_true, false_iff]
    exact (dictGet_isNone_iff ps k).mp (by rw [hopt]; rfl)
  | some v =>
    simp only [Option.isSome_some, true_iff]
    by_contra hk
    have h2 := (dictGet_isNone_iff ps k).mpr hk
    rw [hopt] at h2
    simp at h2

theorem org_setup_stage_participants (org : Organized) (e : Entry) :
    (org_setup_stage org e).participants = org.participants := by
  simp only [org_setup_stage]
  split <;> rfl

theorem org_phase_stage_participants (org : Organized) (cur : Option Str) :
    (org_phase_stage org cur).participants = org.participants := by
  cases cur with
  | none => rfl
  | some ph =>
    simp only [org_phase_stage]
    split <;> rfl

/-- The fresh bucket appended by the registration block. -/
theorem org_register_stage_participants (org : Organized) (e : Entry) :
    (org_register_stage org e).participants =
      (if e.speaker ≠ lit "Moderator" ∧ e.speaker ≠ lit "System" ∧
          (dictGet org.participants e.speaker).isNone = true then
        org.participants ++
          [(e.speaker,
            { name := e.speaker,
              personality_type := e.personality_type.getD (lit "unknown") })]
      else org.participants) := by
  simp only [org_register_stage]
  split <;> rfl


theorem organize_step_participants_inv (st : OrgState) (pre : List Entry) (e : Entry)
    (hA : st.1.participants.map Prod.fst = dedupFirst (nonMSSpeakers pre))
    (hB : ∀ n b, (n, b) ∈ st.1.participants →
      b.responses.length = respCountBy pre n ∧ ∀ rd ∈ b.responses, rd.speaker = n)
    (hC : sumResp st.1 = respCountNonMS pre) :
    (organize_step st e).1.participants.map Prod.fst =
        dedupFirst (nonMSSpeakers (pre ++ [e])) ∧
    (∀ n b, (n, b) ∈ (organize_step st e).1.participants →
      b.responses.length = respCountBy (pre ++ [e]) n ∧
        ∀ rd ∈ b.responses, rd.speaker = n) ∧
    sumResp (organize_step st e).1 = respCountNonMS (pre ++ [e]) := by
  classical
  simp only [sumResp] at hC
  have hsetup : (org_setup_stage st.1 e).participants = st.1.participants :=
    org_setup_stage_participants _ _
  have hreg := org_register_stage_participants (org_setup_stage st.1 e) e
  rw [hsetup] at hreg
  -- invariants of the participant list after setup and registration
  have hA2 : ((org_register_stage (org_setup_stage st.1 e) e).participants).map
      Prod.fst = dedupFirst (nonMSSpeakers (pre ++ [e])) := by
    rw [hreg, nonMSSpeakers_append_singleton]
    by_cases hms : e.speaker ≠ lit "Moderator" ∧ e.speaker ≠ lit "System"
    · rw [if_pos hms, dedupFirst_append_singleton]
      by_cases hk : e.speaker ∈ st.1.participants.map Prod.fst
      · rw [if_neg (fun hcond => ((dictGet_isNone_iff _ _).mp hcond.2.2) hk),
          if_pos (by rw [← hA]; exact hk)]
        exact hA
      · rw [if_pos ⟨hms.1, hms.2, (dictGet_isNone_iff _ _).mpr hk⟩,
          if_neg (by rw [← hA]; exact hk)]
        rw [List.map_append, hA]
        rfl
    · rw [if_neg (fun hcond => hms ⟨hcond.1, hcond.2.1⟩), if_neg hms]
      simpa using hA
  have hnodup2 : (((org_register_stage (org_setup_stage st.1 e) e).participants).map
      Prod.fst).Nodup := by
    rw [hA2]
    exact dedupFirst_nodup _
  have hkeys2MS : ∀ n, n ∈ ((org_register_stage (org_setup_stage st.1 e)
      e).participants).map Prod.fst →
      n ≠ lit "Moderator" ∧ n ≠ lit "System" := by
    intro n hn
    rw [hA2, mem_dedupFirst] at hn
    exact mem_nonMSSpeakers hn
  have hmem2 : ∀ n b,
      (n, b) ∈ (org_register_stage (org_setup_stage st.1 e) e).participants →
      (n, b) ∈ st.1.participants ∨
        (n = e.speaker ∧ b.responses = [] ∧
          n ∉ st.1.participants.map Prod.fst) := by
    intro n b hm
    rw [hreg] at hm
    by_cases hcond : e.speaker ≠ lit "Moderator" ∧ e.speaker ≠ lit "System" ∧
        (dictGet st.1.participants e.speaker).isNone = true
    · rw [if_pos hcond] at hm
      rcases List.mem_append.mp hm with h | h
      · exact Or.inl h
      · rw [List.mem_singleton] at h
        injection h with h1 h2
        subst h1
        refine Or.inr ⟨rfl, ?_, (dictGet_isNone_iff _ _).mp hcond.2.2⟩
        rw [h2]
    · rw [if_neg hcond] at hm
      exact Or.inl hm
  have hB2 : ∀ n b,
      (n, b) ∈ (org_register_stage (org_setup_stage st.1 e) e).participants →
      b.responses.length = respCountBy pre n ∧ ∀ rd ∈ b.responses, rd.speaker = n := by
    intro n b hm
    rcases hmem2 n b hm with h | ⟨hn, hresp, hnot⟩
    · exact hB n b h
    · have hkey : n ∈ ((org_register_stage (org_setup_stage st.1 e)
          e).participants).map Prod.fst := List.mem_map.mpr ⟨(n, b), hm, rfl⟩
      have hMS := hkeys2MS n hkey
      have hzero : respCountBy pre n = 0 := by
        refine respCountBy_eq_zero ?_ hMS.1 hMS.2
        intro hmem
        exact hnot (by rw [hA, mem_dedupFirst]; exact hmem)
      rw [hresp, hzero]
      exact ⟨rfl, by simp [hresp]⟩
  have hC2 : (((org_register_stage (org_setup_stage st.1 e) e).participants).map
      (fun p => p.2.responses.length)).sum = respCountNonMS pre := by
    rw [hreg]
    split
    · rw [List.map_append, List.sum_append]
      simpa using hC
    · exact hC
  have hcount_same : ∀ n, ¬(e.type = lit "response" ∧ e.speaker = n) →
      respCountBy (pre ++ [e]) n = respCountBy pre n := by
    intro n hne
    rw [respCountBy_append_singleton, if_neg hne]
    omega
  have hspk2 : e.speaker ≠ lit "Moderator" → e.speaker ≠ lit "System" →
      e.speaker ∈ ((org_register_stage (org_setup_stage st.1 e)
        e).participants).map Prod.fst := by
    intro h1 h2
    rw [hA2, mem_dedupFirst, nonMSSpeakers_append_singleton, List.mem_append]
    right
    rw [if_pos ⟨h1, h2⟩]
    exact List.mem_singleton_self _
  -- the dispatch and phase stages
  simp only [organize_step, sumResp, org_phase_stage_participants]
  by_cases hq : e.type = lit "question"
  · simp only [org_dispatch_stage, if_pos hq]
    try dsimp only
    refine ⟨hA2, ?_, ?_⟩
    · intro n b hm
      rw [hcount_same n (fun hcon => by
        rw [hq] at hcon
        exact absurd hcon.1 (by decide))]
      exact hB2 n b hm
    · rw [respCountNonMS_append_singleton, if_neg (fun hcon => by
        rw [hq] at hcon
        exact absurd hcon.1 (by decide))]
      simpa using hC2
  · by_cases hr : e.type = lit "response" ∧ e.speaker ≠ lit "Moderator"
    · simp only [org_dispatch_stage, if_neg hq, if_pos hr]
      try dsimp only
      by_cases hsys : e.speaker = lit "System"
      · have hnone : ¬((dictGet (org_register_stage (org_setup_stage st.1 e)
            e).participants e.speaker).isSome = true) := by
          intro hsome
          exact (hkeys2MS _ ((dictGet_isSome_iff _ _).mp hsome)).2 hsys
        rw [if_neg hnone]
        try dsimp only
        refine ⟨hA2, ?_, ?_⟩
        · intro n b hm
          have hkey : n ∈ ((org_register_stage (org_setup_stage st.1 e)
              e).participants).map Prod.fst := List.mem_map.mpr ⟨(n, b), hm, rfl⟩
          rw [hcount_same n (fun hcon => (hkeys2MS n hkey).2 (hcon.2 ▸ hsys))]
          exact hB2 n b hm
        · rw [respCountNonMS_append_singleton,
            if_neg (fun hcon => hcon.2.2 hsys)]
          simpa using hC2
      · have hin : e.speaker ∈ ((org_register_stage (org_setup_stage st.1 e)
            e).participants).map Prod.fst := hspk2 hr.2 hsys
        have hsome : (dictGet (org_register_stage (org_setup_stage st.1 e)
            e).participants e.speaker).isSome = true :=
          (dictGet_isSome_iff _ _).mpr hin
        rw [if_pos hsome]
        try dsimp only
        refine ⟨?_, ?_, ?_⟩
        · rw [updBucket_map_fst]
          exact hA2
        · intro n b hm
          rcases mem_updBucket_nodup hnodup2 hm with ⟨hne, hmem⟩ | ⟨hn, bb, hmem, hb⟩
          · rw [hcount_same n (fun hcon => hne hcon.2.symm)]
            exact hB2 n b hmem
          · subst hn
            have h2 := hB2 _ bb hmem
            constructor
            · rw [respCountBy_append_singleton, if_pos ⟨hr.1, rfl⟩, hb]
              simp only [List.length_append, List.length_cons, List.length_nil]
              omega
            · intro rd hrd
              rw [hb] at hrd
              rcases List.mem_append.mp hrd with h | h
              · exact h2.2 rd h
              · rw [List.mem_singleton] at h
                rw [h]
        · refine Eq.trans (sum_map_updBucket _ _ _
            (fun b => b.responses.length) 1 (fun b => by simp) hin) ?_
          rw [hC2, respCountNonMS_append_singleton, if_pos ⟨hr.1, hr.2, hsys⟩]
    · by_cases hi : e.type = lit "interaction"
      · simp only [org_dispatch_stage, if_neg hq, if_neg hr, if_pos hi]
        try dsimp only
        have hnotresp : ∀ n, ¬(e.type = lit "response" ∧ e.speaker = n) := by
          intro n hcon
          rw [hi] at hcon
          exact absurd hcon.1 (by decide)
        by_cases hsome : (dictGet (org_register_stage (org_setup_stage st.1 e)
            e).participants e.speaker).isSome = true
        · rw [if_pos hsome]
          try dsimp only
          refine ⟨?_, ?_, ?_⟩
          · rw [updBucket_map_fst]
            exact hA2
          · intro n b hm
            rcases mem_updBucket_nodup hnodup2 hm with ⟨hne, hmem⟩ | ⟨hn, bb, hmem, hb⟩
            · rw [hcount_same n (hnotresp n)]
              exact hB2 n b hmem
            · subst hn
              have h2 := hB2 _ bb hmem
              rw [hcount_same _ (hnotresp _), hb]
              exact ⟨by simpa using h2.1, fun rd hrd => h2.2 rd (by simpa using hrd)⟩
          · refine Eq.trans (sum_map_updBucket _ _ _
              (fun b => b.responses.length) 0 (fun b => by simp)
              ((dictGet_isSome_iff _ _).mp hsome)) ?_
            rw [hC2, respCountNonMS_append_singleton, if_neg (fun hcon => by
              rw [hi] at hcon
              exact absurd hcon.1 (by decide))]
        · rw [if_neg hsome]
          refine ⟨hA2, ?_, ?_⟩
          · intro n b hm
            rw [hcount_same n (hnotresp n)]
            exact hB2 n b hm
          · rw [respCountNonMS_append_singleton, if_neg (fun hcon => by
              rw [hi] at hcon
              exact absurd hcon.1 (by decide))]
            simpa using hC2
      · simp only [org_dispatch_stage, if_neg hq, if_neg hr, if_neg hi]
        try dsimp only
        have hmod : e.type = lit "response" → e.speaker = lit "Moderator" := by
          intro ht
          by_contra hmne
          exact hr ⟨ht, hmne⟩
        refine ⟨hA2, ?_, ?_⟩
        · intro n b hm
          have hkey : n ∈ ((org_register_stage (org_setup_stage st.1 e)
              e).participants).map Prod.fst := List.mem_map.mpr ⟨(n, b), hm, rfl⟩
          rw [hcount_same n (fun hcon =>
            (hkeys2MS n hkey).1 (hcon.2 ▸ hmod hcon.1))]
          exact hB2 n b hm
        · rw [respCountNonMS_append_singleton, if_neg (fun hcon =>
            hcon.2.1 (hmod hcon.1))]
          simpa using hC2

theorem organize_foldl_participants_inv (l : List Entry) :
    ∀ (st : OrgState) (pre : List Entry),
      st.1.participants.map Prod.fst = dedupFirst (nonMSSpeakers pre) →
      (∀ n b, (n, b) ∈ st.1.participants →
        b.responses.length = respCountBy pre n ∧ ∀ rd ∈ b.responses, rd.speaker = n) →
      sumResp st.1 = respCountNonMS pre →
      (l.foldl organize_step st).1.participants.map Prod.fst =
          dedupFirst (nonMSSpeakers (pre ++ l)) ∧
      (∀ n b, (n, b) ∈ (l.foldl organize_step st).1.participants →
        b.responses.length = respCountBy (pre ++ l) n ∧
          ∀ rd ∈ b.responses, rd.speaker = n) ∧
      sumResp (l.foldl organize_step st).1 = respCountNonMS (pre ++ l) := by
  induction l with
  | nil =>
    intro st pre hA hB hC
    simpa using ⟨hA, hB, hC⟩
  | cons e rest ih =>
    intro st pre hA hB hC
    rw [List.foldl_cons]
    have hstep := organize_step_participants_inv st pre e hA hB hC
    have := ih (organize_step st e) (pre ++ [e]) hstep.1 hstep.2.1 hstep.2.2
    rw [List.append_assoc] at this
    simpa using this

/-- Claim C2: organizing a transcript yields exactly one participant
bucket per unique non-`Moderator`/non-`System` speaker (in order of first
appearance); each bucket holds exactly that speaker's `type = response`
entries; and the bucket response counts sum to the number of response
entries whose speaker is outside `{Moderator, System}`. -/
theorem organize_participant_buckets_partition (transcript : List Entry) :
    (organize_transcript_data transcript).participants.map Prod.fst =
        dedupFirst (nonMSSpeakers transcript) ∧
    (∀ n b, (n, b) ∈ (organize_transcript_data transcript).participants →
      b.responses.length = respCountBy transcript n ∧
        ∀ rd ∈ b.responses, rd.speaker = n) ∧
    sumResp (organize_transcript_data transcript) = respCountNonMS transcript := by
  have h := organize_foldl_participants_inv transcript ({}, none) []
    (by rfl) (by intro n b hm; simp at hm) (by rfl)
  simpa using h

/-- Witness for C2 at a concrete two-entry transcript. -/
theorem organize_participant_buckets_partition_witness :
    ((lit "Asha",
      ({ name := lit "Asha",
         responses := [{ speaker := lit "Asha", content := lit "ok",
                         phase := none, word_count := 1 }],
         personality_type := lit "unknown", speaking_count := 1,
         total_words := 1 } : Bucket)) ∈
      (organize_transcript_data
        [{ type := lit "response", speaker := lit "Asha", content := lit "ok" },
         { type := lit "casual", speaker := lit "Ravi", content := lit "hello" }]).participants) ∧
    ({ name := lit "Asha",
       responses := [{ speaker := lit "Asha", content := lit "ok",
                       phase := none, word_count := 1 }],
       personality_type := lit "unknown", speaking_count := 1,
       total_words := 1 } : Bucket).responses.length =
      respCountBy
        [{ type := lit "response", speaker := lit "Asha", content := lit "ok" },
         { type := lit "casual", speaker := lit "Ravi", content := lit "hello" }]
        (lit "Asha") :=
  ⟨by decide,
   ((organize_participant_buckets_partition
      [{ type := lit "response", speaker := lit "Asha", content := lit "ok" },
       { type := lit "casual", speaker := lit "Ravi", content := lit "hello" }]).2.1
     (lit "Asha") _ (by decide)).1⟩

/-! ## Claim C1: transcripts open with setup and close with conclusion -/

theorem create_post_discussion_moments_getLast (personas : List Persona) :
    (create_post_discussion_moments personas).getLast? =
      some { type := lit "conclusion", speaker := lit "System",
             content := lit "Focus group discussion completed successfully." } := by
  cases personas with
  | nil => rfl
  | cons p0 rest =>
    cases rest with
    | nil => rfl
    | cons p1 rest2 => rfl

/-- Claim C1: every transcript returned by `conduct_discussion` (in
either phase-flow or agentic mode, under any oracle) is non-empty, opens
with a `setup` entry whose participants list is exactly the input
participant names, and closes with a `conclusion` entry. -/
theorem conduct_discussion_setup_conclusion
    (personas : List Persona) (topic : Str) (plan : Option Str)
    (enabled llmOnly : Bool) (o : Oracle) (t : List Entry)
    (h : conduct_discussion personas topic plan enabled llmOnly o = some t) :
    t ≠ [] ∧
    t.head?.map Entry.type = some (lit "setup") ∧
    t.head?.map Entry.participants = some (personas.map Persona.name) ∧
    t.getLast?.map Entry.type = some (lit "conclusion") := by
  rw [conduct_discussion] at h
  cases hf : compute_discussion_flow topic plan enabled llmOnly o with
  | none =>
    rw [hf] at h
    simp at h
  | some flow =>
    rw [hf] at h
    dsimp only at h
    cases hp : create_pre_discussion_moments personas with
    | none =>
      rw [hp] at h
      simp at h
    | some pre =>
      rw [hp] at h
      dsimp only at h
      cases hm : (if enabled = true then run_agentic_loop o topic personas 0
          else some (phaseLoop o personas topic flow 0).1) with
      | none =>
        rw [hm] at h
        simp at h
      | some mid =>
        rw [hm] at h
        dsimp only at h
        simp only [Option.some.injEq] at h
        subst h
        refine ⟨by simp, by simp, by simp, ?_⟩
        rw [List.getLast?_cons, List.getLast?_append, List.getLast?_append,
          create_post_discussion_moments_getLast]
        rfl

/-- Witness for C1 at the concrete run `c1Run`. -/
theorem conduct_discussion_setup_conclusion_witness :
    c1Run.getD [] ≠ [] ∧
    (c1Run.getD []).head?.map Entry.type = some (lit "setup") ∧
    (c1Run.getD []).head?.map Entry.participants =
      some (c1Personas.map Persona.name) ∧
    (c1Run.getD []).getLast?.map Entry.type = some (lit "conclusion") :=
  conduct_discussion_setup_conclusion c1Personas (lit "skincare") none true false
    c1Oracle (c1Run.getD []) (by rfl)
